import Mathlib

/-!
Verification development for the adalpha-backend core services:
the adaptive trend scorer (app/services/adaptive_trend_scorer.py),
the smart history store (app/services/smart_history_store.py) and
the stream manager (app/services/stream_manager.py).

Python floats are modelled as rationals.  The transcendental helper
math.log1p has no computable rational counterpart, so every definition
that needs it is parametrized by a function L : Q -> Q standing for
log1p; no verified property depends on the values L takes, only on the
x <= 0 short-circuit of log_normalize, which is modelled exactly.
-/

namespace AdAlpha

/-- clamp(x, lo, hi) = max(lo, min(hi, x)) from adaptive_trend_scorer.py. -/
def clamp (x lo hi : ℚ) : ℚ := max lo (min hi x)

/-- safe_growth(curr, prev): 0 when prev is None or prev <= 0, else (curr-prev)/prev. -/
def safeGrowth (curr prev : ℚ) : ℚ := if prev ≤ 0 then 0 else (curr - prev) / prev

/-- log_normalize(value, max_value): 0 when value <= 0, else log1p(value)/log1p(max_value);
the abstract parameter L stands for math.log1p. -/
def logNorm (L : ℚ → ℚ) (value maxValue : ℚ) : ℚ :=
  if value ≤ 0 then 0 else L value / L maxValue

/-- Python round(x, 3) modelled on rationals (ties rounded half-up rather than
half-to-even; no verified property evaluates at an exact tie). -/
def round3 (x : ℚ) : ℚ := (round (x * 1000) : ℤ) / 1000

/-- Python round(x, 2), used for avg_update_count. -/
def round2 (x : ℚ) : ℚ := (round (x * 100) : ℤ) / 100

/-- str.lower() (ASCII, which is all the repository uses). -/
def strLower (s : String) : String := String.mk (s.data.map Char.toLower)

/-- Python str.strip() whitespace set (space, tab, newline, cr, vtab, formfeed). -/
def pySpace (c : Char) : Bool :=
  c == ' ' || c == '\t' || c == '\n' || c == '\r' || c == Char.ofNat 11 || c == Char.ofNat 12

/-- Strip leading and trailing whitespace from a char list. -/
def trimChars (cs : List Char) : List Char :=
  ((cs.dropWhile pySpace).reverse.dropWhile pySpace).reverse

/-- Python str.strip(). -/
def strStrip (s : String) : String := String.mk (trimChars s.data)

/-- str.lstrip("#"): drop every leading '#'. -/
def stripHash (s : String) : String := String.mk (s.data.dropWhile (· == '#'))

/-- keyword.lower().strip().lstrip("#") from get_keyword_profile / store key cleaning. -/
def normKeyword (s : String) : String := stripHash (strStrip (strLower s))

/-- Helper for substring tests: does the candidate list start with the needle? -/
def charsStartWith : List Char → List Char → Bool
  | [], _ => true
  | _ :: _, [] => false
  | a :: as, b :: bs => a == b && charsStartWith as bs

/-- Does the haystack contain the needle as a contiguous sublist? -/
def charsContain (needle : List Char) : List Char → Bool
  | [] => charsStartWith needle []
  | b :: bs => charsStartWith needle (b :: bs) || charsContain needle bs

/-- Python `needle in hay` on strings (substring test). -/
def strContainsStr (hay needle : String) : Bool := charsContain needle.data hay.data

/-- The Platform enum of adaptive_trend_scorer.py. -/
inductive Platform
  | tiktok | instagram | reddit | youtube | twitter | linkedin | unknown
deriving DecidableEq, Repr

/-- detect_platform: lower+strip the string then map it; unrecognized -> unknown. -/
def detectPlatform (s : String) : Platform :=
  let p := strStrip (strLower s)
  if p = "tiktok" then .tiktok
  else if p = "instagram" then .instagram
  else if p = "reddit" then .reddit
  else if p = "youtube" then .youtube
  else if p = "twitter" then .twitter
  else if p = "x" then .twitter
  else if p = "linkedin" then .linkedin
  else .unknown

/-- PlatformMetricMapping dataclass (defaults mirror the Python dataclass defaults). -/
structure PlatformMetricMapping where
  viewsField : Option String := none
  likesField : Option String := none
  commentsField : Option String := none
  sharesField : Option String := none
  savesField : Option String := none
  postsField : Option String := none
  upvotesField : Option String := none
  downvotesField : Option String := none
  scoreField : Option String := none
  viewsWeight : ℚ := 1
  likesWeight : ℚ := 1
  commentsWeight : ℚ := 1
  sharesWeight : ℚ := 1
  savesWeight : ℚ := 1
  hotViews : ℚ := 1/2
  hotEngagement : ℚ := 3/10
  hotPosts : ℚ := 1/5
deriving DecidableEq, Repr

/-- PLATFORM_CONFIGS plus the get_platform_config fallback to the default mapping
(there is no entry for UNKNOWN, so unknown gets the dataclass defaults). -/
def platformConfig : Platform → PlatformMetricMapping
  | .tiktok =>
      { viewsField := some "views", likesField := some "likes", commentsField := some "comments",
        sharesField := some "shares", savesField := some "saves",
        viewsWeight := 1, likesWeight := 1, commentsWeight := 1, sharesWeight := 1, savesWeight := 1,
        hotViews := 1/2, hotEngagement := 3/10, hotPosts := 1/5 }
  | .instagram =>
      { viewsField := some "views", likesField := some "likes", commentsField := some "comments",
        sharesField := some "shares", savesField := none,
        viewsWeight := 1, likesWeight := 6/5, commentsWeight := 13/10, sharesWeight := 11/10,
        savesWeight := 0,
        hotViews := 7/20, hotEngagement := 9/20, hotPosts := 1/5 }
  | .youtube =>
      { viewsField := some "views", likesField := some "likes", commentsField := some "comments",
        sharesField := none, savesField := none,
        viewsWeight := 13/10, likesWeight := 1, commentsWeight := 3/2, sharesWeight := 0,
        savesWeight := 0,
        hotViews := 13/20, hotEngagement := 1/5, hotPosts := 3/20 }
  | .twitter =>
      { viewsField := some "views", likesField := some "likes", commentsField := some "comments",
        sharesField := some "retweets", savesField := some "bookmarks",
        viewsWeight := 4/5, likesWeight := 1, commentsWeight := 6/5, sharesWeight := 3/2,
        savesWeight := 4/5,
        hotViews := 2/5, hotEngagement := 2/5, hotPosts := 1/5 }
  | .reddit =>
      { viewsField := none, likesField := none, commentsField := some "comments",
        sharesField := none, savesField := none,
        upvotesField := some "upvotes", downvotesField := some "downvotes",
        scoreField := some "score",
        viewsWeight := 0, likesWeight := 0, commentsWeight := 2, sharesWeight := 0, savesWeight := 0,
        hotViews := 0, hotEngagement := 7/10, hotPosts := 3/10 }
  | .linkedin =>
      { viewsField := none, likesField := none, commentsField := none,
        sharesField := none, savesField := none,
        viewsWeight := 0, likesWeight := 0, commentsWeight := 0, sharesWeight := 0, savesWeight := 0,
        hotViews := 0, hotEngagement := 0, hotPosts := 1 }
  | .unknown => {}

/-- A Python value as it can appear in a stats dict or a display field.
vjunk stands for any truthy value that float() and string slicing both
reject (a list, a dict, a non-numeric string object, ...). -/
inductive PyVal
  | vnum : ℚ → PyVal
  | vstr : String → PyVal
  | vbool : Bool → PyVal
  | vnone : PyVal
  | vjunk : PyVal
deriving DecidableEq, Repr

/-- Python truthiness of the modelled values. -/
def pyTruthy : PyVal → Bool
  | .vnum q => q != 0
  | .vstr s => !s.data.isEmpty
  | .vbool b => b
  | .vnone => false
  | .vjunk => true

/-- Digits of a decimal literal to a natural number (none on a non-digit). -/
def decDigits : List Char → Option ℕ
  | [] => some 0
  | c :: cs =>
      if c.isDigit then
        (decDigits cs).map (fun n => (c.toNat - 48) * 10 ^ cs.length + n)
      else none

/-- Python float(s) on a plain decimal string literal (optional sign, digits,
optional fractional part); exponent/inf/nan forms are outside the scope of
every claim and are mapped to a parse failure. -/
def parseDec (s : String) : Option ℚ :=
  let cs := trimChars s.data
  let signed : ℚ × List Char :=
    match cs with
    | '-' :: t => (-1, t)
    | '+' :: t => (1, t)
    | _ => (1, cs)
  let intPart := signed.2.takeWhile Char.isDigit
  let rest := signed.2.dropWhile Char.isDigit
  match rest with
  | [] =>
      if intPart.isEmpty then none
      else (decDigits intPart).map (fun n => signed.1 * n)
  | '.' :: frac =>
      if frac.all Char.isDigit && !(intPart.isEmpty && frac.isEmpty) then
        match decDigits intPart, decDigits frac with
        | some i, some f => some (signed.1 * ((i : ℚ) + (f : ℚ) / 10 ^ frac.length))
        | _, _ => none
      else none
  | _ => none

/-- Python float(v): numbers pass through, booleans become 0/1, decimal strings
parse, everything else raises (modelled as none). -/
def pyFloat : PyVal → Option ℚ
  | .vnum q => some q
  | .vstr s => parseDec s
  | .vbool b => some (if b then 1 else 0)
  | .vnone => none
  | .vjunk => none

/-- float(v or 0): a falsy value is replaced by 0 before float() is applied. -/
def coerceStat (v : PyVal) : Option ℚ :=
  if pyTruthy v then pyFloat v else some 0

/-- A raw stats dict: association list from keys to Python values. -/
abbrev RawStats := List (String × PyVal)

/-- float(raw_stats.get(f, 0) or 0): a missing key defaults to 0. -/
def getStat (raw : RawStats) (f : String) : Option ℚ :=
  match raw.lookup f with
  | some v => coerceStat v
  | none => some 0

/-- Looks a configured field up: none when the config field is None or the key absent. -/
def fieldPresent (raw : RawStats) (f : Option String) : Option PyVal :=
  match f with
  | none => none
  | some k => raw.lookup k

/-- The standardized metric names of extract_metrics. -/
inductive MetricName
  | views | likes | comments | shares | saves
deriving DecidableEq, Repr

/-- The standardized metrics extracted from a raw stats dict. -/
structure Metrics where
  views : ℚ
  likes : ℚ
  comments : ℚ
  shares : ℚ
  saves : ℚ
deriving DecidableEq, Repr

def Metrics.get (m : Metrics) : MetricName → ℚ
  | .views => m.views
  | .likes => m.likes
  | .comments => m.comments
  | .shares => m.shares
  | .saves => m.saves

/-- The platform compensation weight of a metric (the "_weights" dict). -/
def platWeight (c : PlatformMetricMapping) : MetricName → ℚ
  | .views => c.viewsWeight
  | .likes => c.likesWeight
  | .comments => c.commentsWeight
  | .shares => c.sharesWeight
  | .saves => c.savesWeight

/-- Views extraction branch of extract_metrics (with the Reddit score*10 proxy). -/
def extractViews (raw : RawStats) (p : Platform) (c : PlatformMetricMapping) : Option ℚ :=
  match fieldPresent raw c.viewsField with
  | some v => coerceStat v
  | none =>
      match p, c.scoreField with
      | Platform.reddit, some sf => (getStat raw sf).map (· * 10)
      | _, _ => some 0

/-- Likes extraction branch of extract_metrics (likes, then upvotes, then score). -/
def extractLikes (raw : RawStats) (c : PlatformMetricMapping) : Option ℚ :=
  match fieldPresent raw c.likesField with
  | some v => coerceStat v
  | none =>
      match fieldPresent raw c.upvotesField with
      | some v => coerceStat v
      | none =>
          match fieldPresent raw c.scoreField with
          | some v => coerceStat v
          | none => some 0

/-- Standard extraction branch for comments/shares/saves. -/
def extractStd (raw : RawStats) (f : Option String) : Option ℚ :=
  match fieldPresent raw f with
  | some v => coerceStat v
  | none => some 0

/-- extract_metrics: map raw platform fields onto the standard metric record.
A none result models float() raising on a truthy non-numeric stat value. -/
def extractMetrics (raw : RawStats) (p : Platform) : Option Metrics :=
  match extractViews raw p (platformConfig p), extractLikes raw (platformConfig p),
      extractStd raw (platformConfig p).commentsField,
      extractStd raw (platformConfig p).sharesField,
      extractStd raw (platformConfig p).savesField with
  | some v, some l, some cm, some sh, some sv => some ⟨v, l, cm, sh, sv⟩
  | _, _, _, _, _ => none

/-- A keyword profile from DEFAULT_KEYWORD_PROFILES. -/
structure KeywordProfile where
  aiFeasibility : ℚ
  monetization : ℚ
  ipRisk : ℚ
  category : String
deriving DecidableEq, Repr

/-- The fallback profile returned by get_keyword_profile. -/
def defaultProfile : KeywordProfile := ⟨3, 1/2, 1/5, "general"⟩

/-- DEFAULT_KEYWORD_PROFILES, in dict insertion order. -/
def keywordProfiles : List (String × KeywordProfile) :=
  [ ("ai headshot", ⟨5, 9/10, 1/10, "portrait"⟩),
    ("ai manga filter", ⟨4, 4/5, 3/10, "filter"⟩),
    ("background remover", ⟨5, 17/20, 1/10, "tool"⟩),
    ("image upscaler", ⟨5, 4/5, 1/10, "tool"⟩),
    ("anime filter", ⟨4, 7/10, 1/5, "filter"⟩),
    ("ghibli filter", ⟨4, 7/10, 1/2, "filter"⟩),
    ("arcane filter", ⟨4, 7/10, 3/5, "filter"⟩),
    ("music", ⟨3, 1/2, 3/10, "general"⟩),
    ("dance", ⟨3, 1/2, 1/5, "general"⟩),
    ("fashion", ⟨3, 3/5, 1/5, "general"⟩) ]

/-- First profile whose key is a substring of the keyword or vice versa. -/
def findSubstrMatch : List (String × KeywordProfile) → String → Option KeywordProfile
  | [], _ => none
  | (k, v) :: rest, kw =>
      if strContainsStr kw k || strContainsStr k kw then some v
      else findSubstrMatch rest kw

/-- get_keyword_profile: exact match, then substring match, then default. -/
def getKeywordProfile (kw : String) : KeywordProfile :=
  let n := normKeyword kw
  match keywordProfiles.lookup n with
  | some p => p
  | none => (findSubstrMatch keywordProfiles n).getD defaultProfile

/-- The normalized views term of compute_hotness. -/
def viewsNormOf (L : ℚ → ℚ) (m : Metrics) : ℚ :=
  if m.views > 0 then logNorm L m.views 100000000 else 0

/-- The engagement term of compute_hotness (Reddit blends score and comments 60/40;
otherwise the engagement rate is capped at 0.5 and rescaled, falling back to
normalized likes when views are absent). -/
def engagementOf (L : ℚ → ℚ) (m : Metrics) (p : Platform) : ℚ :=
  if p = Platform.reddit then
    (if m.likes > 0 then
       (if m.comments > 0 then
          (3/5) * logNorm L m.likes 100000 + (2/5) * logNorm L m.comments 10000
        else logNorm L m.likes 100000)
     else 0)
  else if m.views > 0 then
    min ((m.likes + m.comments * 2 + m.shares * 3) / m.views) (1/2) / (1/2)
  else if m.likes > 0 then logNorm L m.likes 1000000
  else 0

/-- The normalized posts term of compute_hotness (and of the LinkedIn branch). -/
def postsNormOf (L : ℚ → ℚ) (posts maxValue : ℚ) : ℚ :=
  if posts > 0 then logNorm L posts maxValue else 0

/-- compute_hotness (H): platform-adaptive blend of normalized views,
engagement and post count, clamped to [0,1]. -/
def computeHotness (L : ℚ → ℚ) (m : Metrics) (posts : ℚ) (p : Platform) : ℚ :=
  if p = Platform.linkedin then
    clamp (postsNormOf L posts 1000 * (3/10)) 0 1
  else
    clamp ((platformConfig p).hotViews * viewsNormOf L m +
      (platformConfig p).hotEngagement * engagementOf L m p +
      (platformConfig p).hotPosts * postsNormOf L posts 10000) 0 1

/-- VELOCITY_WEIGHTS, in the loop's iteration order. -/
def velocityList : List (MetricName × ℚ) :=
  [(.views, 9/20), (.likes, 1/4), (.comments, 3/20), (.shares, 1/10), (.saves, 1/20)]

/-- Accumulator of the compute_velocity loop. -/
structure VelAcc where
  raw : ℚ
  total : ℚ
  valid : Bool
deriving DecidableEq, Repr

/-- One iteration of the compute_velocity loop. -/
def velStep (c : PlatformMetricMapping) (m pm : Metrics) (acc : VelAcc) (e : MetricName × ℚ) :
    VelAcc :=
  let curr := m.get e.1
  let prev := pm.get e.1
  let pw := platWeight c e.1
  if pw = 0 then acc
  else if prev > 0 then
    ⟨acc.raw + e.2 * pw * clamp (safeGrowth curr prev) (-1) 3, acc.total + e.2 * pw, true⟩
  else if curr > 0 then
    ⟨acc.raw + e.2 * pw * 2, acc.total + e.2 * pw, true⟩
  else acc

/-- compute_velocity (V): neutral 0.5 without history or valid growth, else the
weighted average growth mapped into [0,1]. -/
def computeVelocity (m : Metrics) (pm? : Option Metrics) (p : Platform) : ℚ :=
  match pm? with
  | none => 1/2
  | some pm =>
      let c := platformConfig p
      let a := velocityList.foldl (velStep c m pm) ⟨0, 0, false⟩
      if ¬ a.valid ∨ a.total = 0 then 1/2
      else clamp ((a.raw / a.total + 1) / 4) 0 1

/-- compute_density (D): freshness (neutral 0.5 on a first crawl), post count and
creator diversity; unique_creators is never populated by compute_trend_score, so
its caller always passes 0 there. -/
def computeDensity (L : ℚ → ℚ) (posts uniqueCreators freshnessRate : ℚ)
    (isFirstCrawl : Bool) : ℚ :=
  let postsNorm := logNorm L posts 10000
  let creatorsNorm :=
    if uniqueCreators > 0 then logNorm L uniqueCreators 1000 else postsNorm * (1/2)
  let fresh := if isFirstCrawl then 1/2 else freshnessRate
  clamp ((1/2) * fresh + (3/10) * postsNorm + (1/5) * creatorsNorm) 0 1

/-- compute_feasibility (F): (ai_feasibility - 1)/4 clamped. -/
def computeFeasibility (kw : String) : ℚ :=
  clamp (((getKeywordProfile kw).aiFeasibility - 1) / 4) 0 1

/-- The platform-adjusted base monetization of compute_monetization
(base_monetization after the platform multiplier). -/
def monetBase (kw : String) (p : Platform) : ℚ :=
  if p = Platform.linkedin then (getKeywordProfile kw).monetization * (1/2)
  else if p = Platform.reddit then (getKeywordProfile kw).monetization * (7/10)
  else if p = Platform.instagram then (getKeywordProfile kw).monetization * (11/10)
  else if p = Platform.twitter then (getKeywordProfile kw).monetization * (9/10)
  else (getKeywordProfile kw).monetization

/-- The traffic-scale bonus of compute_monetization. -/
def monetBonus (m : Metrics) (p : Platform) : ℚ :=
  if p = Platform.linkedin then 0
  else if p = Platform.reddit then
    (if m.likes ≥ 10000 then 1/10 else if m.likes ≥ 5000 then 1/20 else 0)
  else if p = Platform.instagram then
    (if m.views ≥ 10000000 then 1/10 else if m.views ≥ 1000000 then 1/20 else 0)
  else if p = Platform.twitter then
    (if m.views ≥ 10000000 then 1/10 else if m.views ≥ 1000000 then 1/20 else 0)
  else
    (if m.views ≥ 50000000 then 1/10 else if m.views ≥ 10000000 then 1/20 else 0)

/-- compute_monetization (M): profile monetization with a platform multiplier
and a volume bonus, clamped. -/
def computeMonetization (kw : String) (m : Metrics) (p : Platform) : ℚ :=
  clamp (monetBase kw p + monetBonus m p) 0 1

/-- The competition_risk step function of compute_risk. -/
def riskCompetition (m : Metrics) (posts : ℚ) (p : Platform) : ℚ :=
  if p = Platform.linkedin then 1/10
  else if p = Platform.reddit then
    (if m.likes > 10000 then 3/5 else if m.likes > 5000 then 2/5
     else if m.likes > 1000 then 1/5 else 0)
  else if posts > 5000 ∧ m.views > 50000000 then 4/5
  else if posts > 1000 ∧ m.views > 10000000 then 1/2
  else if posts > 100 then 3/10
  else 0

/-- compute_risk (R): 0.6*ip_risk + 0.4*competition_risk, clamped. -/
def computeRisk (kw : String) (m : Metrics) (posts : ℚ) (p : Platform) : ℚ :=
  clamp ((3/5) * (getKeywordProfile kw).ipRisk + (2/5) * riskCompetition m posts p) 0 1

/-- determine_lifecycle, in source rule order. -/
def determineLifecycle (V H D : ℚ) : String :=
  if V ≥ 4/5 then "rising"
  else if V ≤ 1/5 then "declining"
  else if H ≥ 7/10 ∧ D ≥ 3/5 then "evergreen"
  else if V ≥ 3/5 ∧ H ≥ 3/5 then "sustained"
  else if V ≥ 7/10 then "flash"
  else "sustained"

/-- determine_priority thresholds. -/
def determinePriority (t : ℤ) (M F : ℚ) : String :=
  if t ≥ 85 ∧ M ≥ 17/20 ∧ F ≥ 4/5 then "P0"
  else if t ≥ 75 ∧ M ≥ 7/10 ∧ F ≥ 3/5 then "P1"
  else if t ≥ 60 ∧ M ≥ 1/2 ∧ F ≥ 1/2 then "P2"
  else "P3"

/-- The fields of the result dict of compute_trend_score that the claims
are about (dimension values as returned, i.e. rounded to 3 decimals). -/
structure ScoreResult where
  trendScore : ℤ
  H : ℚ
  V : ℚ
  D : ℚ
  F : ℚ
  M : ℚ
  R : ℚ
  lifecycle : String
  priority : String
  agentReady : Bool
deriving DecidableEq, Repr

/-- prev_raw_stats.get(k, 0) == 0 in Python (missing key yields 0 == 0; False == 0
is True because bool is an int subtype; strings, None and junk never equal 0). -/
def pyGetEqZero (raw : RawStats) (k : String) : Bool :=
  match raw.lookup k with
  | none => true
  | some (.vnum q) => q == 0
  | some (.vbool b) => !b
  | some _ => false

/-- The first-crawl test of compute_trend_score: no previous stats, or all of
views/likes/comments equal to 0 there. -/
def isFirstCrawlOf (prevRaw : Option RawStats) : Bool :=
  match prevRaw with
  | none => true
  | some pr => pyGetEqZero pr "views" && pyGetEqZero pr "likes" && pyGetEqZero pr "comments"

/-- The pure scoring pipeline of compute_trend_score once the platform has been
detected and the metrics extracted. -/
def scoreCore (L : ℚ → ℚ) (kw : String) (p : Platform) (m : Metrics) (pm? : Option Metrics)
    (isFC : Bool) (posts freshnessRate : ℚ) : ScoreResult :=
  let H := computeHotness L m posts p
  let V := computeVelocity m pm? p
  let D := computeDensity L posts 0 freshnessRate isFC
  let F := computeFeasibility kw
  let M := computeMonetization kw m p
  let R := computeRisk kw m posts p
  let s := clamp ((1/5) * H + (3/10) * V + (3/20) * D + (3/20) * F + (1/5) * M - (1/4) * R) 0 1
  let t : ℤ := round (100 * s)
  { trendScore := t,
    H := round3 H, V := round3 V, D := round3 D, F := round3 F, M := round3 M, R := round3 R,
    lifecycle := determineLifecycle V H D,
    priority := determinePriority t M F,
    agentReady := decide (t ≥ 60) && decide (F ≥ 1/2) }

/-- compute_trend_score.  A none result models an exception escaping the call
(float() raising on a truthy non-numeric stat value); an empty prev dict is
falsy in Python, so it yields prev_metrics = None exactly as the source does. -/
def prevMetricsOf (prevRaw : Option RawStats) (p : Platform) : Option (Option Metrics) :=
  match prevRaw with
  | none => some none
  | some pr => if pr.isEmpty then some none else (extractMetrics pr p).map some

def computeTrendScore (L : ℚ → ℚ) (kw platformStr : String) (raw : RawStats)
    (prevRaw : Option RawStats) (posts freshnessRate : ℚ) : Option ScoreResult :=
  match extractMetrics raw (detectPlatform platformStr),
      prevMetricsOf prevRaw (detectPlatform platformStr) with
  | some m, some pm? =>
      some (scoreCore L kw (detectPlatform platformStr) m pm? (isFirstCrawlOf prevRaw)
        posts freshnessRate)
  | _, _ => none

/-- A concrete stand-in for log1p used to evaluate witnesses; no verified
property depends on its values. -/
def zeroLog : ℚ → ℚ := fun _ => 0

/-! ### Velocity characterization (spec-side formulation) -/
/-- Per-metric growth signal as the spec words it: growth (curr-prev)/prev clamped
to [-1,3] when prev > 0; forced 2.0 when prev is 0 (or negative) and curr > 0;
no signal otherwise. -/
def specGrowth (curr prev : ℚ) : Option ℚ :=
  if prev > 0 then some (clamp ((curr - prev) / prev) (-1) 3)
  else if curr > 0 then some 2
  else none

/-- The contribution (effective weight, growth) of one metric to V, or none when
the metric is excluded (zero platform weight or no growth signal). -/
def specContrib (c : PlatformMetricMapping) (m pm : Metrics) (e : MetricName × ℚ) :
    Option (ℚ × ℚ) :=
  let pw := platWeight c e.1
  if pw = 0 then none
  else (specGrowth (m.get e.1) (pm.get e.1)).map (fun g => (e.2 * pw, g))

/-- V as the spec words it: 0.5 when no metric contributes, else the effective-weight
average of the growth signals mapped through (g+1)/4 and clamped to [0,1]. -/
def specVelocity (m : Metrics) (pm? : Option Metrics) (p : Platform) : ℚ :=
  match pm? with
  | none => 1/2
  | some pm =>
      let cs := velocityList.filterMap (specContrib (platformConfig p) m pm)
      if cs.isEmpty then 1/2
      else clamp (((cs.map (fun x => x.1 * x.2)).sum / (cs.map Prod.fst).sum + 1) / 4) 0 1

/-! ### C1: the neutral-prior concrete score -/
/-- The all-zero TikTok stats dict of the neutral-prior test vector. -/
def c1RawZero : RawStats :=
  [("views", .vnum 0), ("likes", .vnum 0), ("comments", .vnum 0),
   ("shares", .vnum 0), ("saves", .vnum 0)]

def c10Raw : RawStats :=
  [("views", .vnum 10), ("likes", .vnum 0), ("comments", .vnum 0),
   ("shares", .vnum 10), ("saves", .vnum 0)]

def c10Prev : RawStats :=
  [("views", .vnum 0), ("likes", .vnum 0), ("comments", .vnum 0),
   ("shares", .vnum 5), ("saves", .vnum 0)]

/-! ### C6: failure semantics of compute_trend_score -/
/-- A stat value on which the extraction pipeline cannot raise: a number, a
boolean, or any falsy value (None, the empty string) — a falsy value never
reaches float() because `or 0` replaces it first. -/
def okStat : PyVal → Bool
  | .vnum _ => true
  | .vbool _ => true
  | v => !pyTruthy v

def c6Raw : RawStats :=
  [("views", .vnum 1), ("extra", .vnone), ("likes", .vbool false), ("comments", .vstr "")]

/-! ### Smart history store (smart_history_store.py)

The posts and tag_scores tables are modelled as association lists keyed by the
row id.  Counters are sqlite INTEGERs, modelled as ℤ.  An upsert runs inside a
BEGIN IMMEDIATE / COMMIT transaction whose body may raise; on an exception the
code issues ROLLBACK and re-raises, which per sqlite semantics leaves the
committed tables exactly as they were — modelled by returning the original
tables alongside the error. -/
/-- The Python exceptions the modelled store paths can raise. -/
inductive PyErr
  | typeError | interfaceError | valueError | attributeError
deriving DecidableEq, Repr

deriving instance DecidableEq for Except

/-- One row of the posts table. -/
structure PostRec where
  platform : String := ""
  tag : String := ""
  postId : String := ""
  author : String := ""
  title : String := ""
  description : String := ""
  contentUrl : String := ""
  coverUrl : String := ""
  views : ℤ := 0
  likes : ℤ := 0
  comments : ℤ := 0
  shares : ℤ := 0
  saves : ℤ := 0
  prevViews : ℤ := 0
  prevLikes : ℤ := 0
  prevComments : ℤ := 0
  prevShares : ℤ := 0
  prevSaves : ℤ := 0
  trendScore : ℚ := 0
  dimensions : List (String × ℚ) := []
  lifecycle : String := "unknown"
  priority : String := "P3"
  firstSeenAt : String := ""
  lastUpdatedAt : String := ""
  postCreatedAt : String := ""
  updateCount : ℕ := 1
deriving DecidableEq, Repr

/-- One row of the tag_scores table (the fields the claims can observe). -/
structure TagScoreRec where
  platform : String := ""
  tag : String := ""
  totalViews : ℤ := 0
  totalLikes : ℤ := 0
  totalComments : ℤ := 0
  totalShares : ℤ := 0
  totalSaves : ℤ := 0
  postCount : ℤ := 0
  trendScore : ℚ := 0
  freshnessRate : ℚ := 1/2
  activityLevel : String := "unknown"
  newPostsCount : ℤ := 0
  lastUpdatedAt : String := ""
deriving DecidableEq, Repr

abbrev PostTable := List (String × PostRec)

/-- The committed database state: the posts and tag_scores tables. -/
structure Tables where
  posts : PostTable := []
  tagScores : List (String × TagScoreRec) := []
deriving DecidableEq, Repr

def emptyTables : Tables := {}

/-- stats.get(k, 0) or 0 on an integer stats dict. -/
def statGet (stats : List (String × ℤ)) (k : String) : ℤ := (stats.lookup k).getD 0

/-- COALESCE(NULLIF(new, ''), old): keep the old value when the new one is empty. -/
def coalesceField (newVal old : String) : String := if newVal = "" then old else newVal

/-- Python `v[:n] if v else ""`: slicing raises TypeError on a truthy non-string. -/
def pySlice (v : PyVal) (n : ℕ) : Except PyErr String :=
  if pyTruthy v then
    match v with
    | .vstr s => .ok (String.mk (s.data.take n))
    | _ => .error .typeError
  else .ok ""

/-- Binding a display value into COALESCE(NULLIF(?, ''), col): a string keeps or
replaces, None keeps, a number or boolean is stored via TEXT affinity, and an
unbindable object (list/dict) raises InterfaceError. -/
def bindDisplay (v : PyVal) (old : String) : Except PyErr String :=
  match v with
  | .vjunk => .error .interfaceError
  | .vstr s => .ok (if s = "" then old else s)
  | .vnone => .ok old
  | .vnum q => .ok (toString q.num ++ "/" ++ toString q.den)
  | .vbool b => .ok (toString b)

/-- The row id f"{platform}:{post_id}" (note: the platform is not lowercased here). -/
def upsertUid (platform postId : String) : String := platform ++ ":" ++ postId

/-- UPDATE ... WHERE id = k: replace the row with that key in place. -/
def replaceKey (k : String) (v : PostRec) (l : PostTable) : PostTable :=
  l.map (fun kv => if kv.1 = k then (kv.1, v) else kv)

/-- The arguments of upsert_post.  title and description are typed str in the
signature but Python does not enforce it, so they are modelled as PyVal (the
callers pass strings; anything else raises inside the transaction). -/
structure UpsertArgs where
  platform : String
  tag : String
  postId : String
  stats : List (String × ℤ)
  author : String := ""
  title : PyVal := .vstr ""
  description : PyVal := .vstr ""
  contentUrl : String := ""
  coverUrl : String := ""
  postCreatedAt : String := ""
  trendScore : ℚ := 0
  dimensions : List (String × ℚ) := []
  lifecycle : String := "unknown"
  priority : String := "P3"
deriving Repr

/-- The body of the upsert_post transaction: update-or-insert one row,
returning (tables, is_new, prev_stats); an error models an exception raised
inside the transaction before COMMIT. -/
def upsertPostBody (now : String) (a : UpsertArgs) (t : Tables) :
    Except PyErr (Tables × Bool × Option (List (String × ℤ))) :=
  match t.posts.lookup (upsertUid a.platform a.postId) with
  | some ex =>
      match bindDisplay a.title ex.title, bindDisplay a.description ex.description with
      | .ok title', .ok desc' =>
          let updated : PostRec :=
            { ex with
              views := statGet a.stats "views", likes := statGet a.stats "likes",
              comments := statGet a.stats "comments", shares := statGet a.stats "shares",
              saves := statGet a.stats "saves",
              prevViews := ex.views, prevLikes := ex.likes, prevComments := ex.comments,
              prevShares := ex.shares, prevSaves := ex.saves,
              author := coalesceField a.author ex.author,
              title := title', description := desc',
              contentUrl := coalesceField a.contentUrl ex.contentUrl,
              coverUrl := coalesceField a.coverUrl ex.coverUrl,
              trendScore := a.trendScore, dimensions := a.dimensions,
              lifecycle := a.lifecycle, priority := a.priority,
              lastUpdatedAt := now, updateCount := ex.updateCount + 1 }
          .ok ({ t with posts := replaceKey (upsertUid a.platform a.postId) updated t.posts },
            false,
            some [("views", ex.views), ("likes", ex.likes), ("comments", ex.comments),
                  ("shares", ex.shares), ("saves", ex.saves)])
      | .error e, _ => .error e
      | .ok _, .error e => .error e
  | none =>
      match pySlice a.title 200, pySlice a.description 500 with
      | .ok title', .ok desc' =>
          let inserted : PostRec :=
            { platform := strLower a.platform, tag := stripHash (strLower a.tag),
              postId := a.postId, author := a.author, title := title',
              description := desc', contentUrl := a.contentUrl, coverUrl := a.coverUrl,
              views := statGet a.stats "views", likes := statGet a.stats "likes",
              comments := statGet a.stats "comments", shares := statGet a.stats "shares",
              saves := statGet a.stats "saves",
              prevViews := 0, prevLikes := 0, prevComments := 0, prevShares := 0,
              prevSaves := 0,
              trendScore := a.trendScore, dimensions := a.dimensions,
              lifecycle := a.lifecycle, priority := a.priority,
              firstSeenAt := now, lastUpdatedAt := now, postCreatedAt := a.postCreatedAt,
              updateCount := 1 }
          .ok ({ t with posts := t.posts ++ [(upsertUid a.platform a.postId, inserted)] },
            true, none)
      | .error e, _ => .error e
      | .ok _, .error e => .error e

/-- upsert_post: run the transaction body; on an exception ROLLBACK leaves the
committed tables unchanged and the exception is re-raised. -/
def upsertPost (now : String) (a : UpsertArgs) (t : Tables) :
    Tables × Except PyErr (Bool × Option (List (String × ℤ))) :=
  match upsertPostBody now a t with
  | .ok (t', isNew, prev) => (t', .ok (isNew, prev))
  | .error e => (t, .error e)

/-- One element of the posts_data list of batch_upsert_posts; a dict key that is
absent behaves as the given default (data.get). -/
structure BatchItem where
  platform : String := "unknown"
  postId : String := ""
  tag : String := ""
  stats : List (String × ℤ) := []
  author : String := ""
  title : PyVal := .vnone
  description : PyVal := .vnone
  contentUrl : String := ""
  coverUrl : String := ""
  trendScore : ℚ := 0
  dimensions : List (String × ℚ) := []
  lifecycle : String := "unknown"
  priority : String := "P3"
  postCreatedAt : String := ""
deriving Repr

/-- One iteration of the batch_upsert_posts loop over (tables, new_count,
updated_count); title/description slicing runs before the insert/update branch
and can raise regardless of which branch is taken. -/
def batchStep (now : String) (acc : Tables × ℕ × ℕ) (d : BatchItem) :
    Except PyErr (Tables × ℕ × ℕ) :=
  match pySlice d.title 200, pySlice d.description 500 with
  | .ok title', .ok desc' =>
      match acc.1.posts.lookup (upsertUid d.platform d.postId) with
      | some ex =>
          let updated : PostRec :=
            { ex with
              prevViews := ex.views, prevLikes := ex.likes, prevComments := ex.comments,
              prevShares := ex.shares, prevSaves := ex.saves,
              views := statGet d.stats "views", likes := statGet d.stats "likes",
              comments := statGet d.stats "comments", shares := statGet d.stats "shares",
              saves := statGet d.stats "saves",
              trendScore := d.trendScore, dimensions := d.dimensions,
              lifecycle := d.lifecycle, priority := d.priority,
              lastUpdatedAt := now, updateCount := ex.updateCount + 1 }
          .ok ({ acc.1 with
              posts := replaceKey (upsertUid d.platform d.postId) updated acc.1.posts },
            acc.2.1, acc.2.2 + 1)
      | none =>
          let inserted : PostRec :=
            { platform := strLower d.platform, tag := stripHash (strLower d.tag),
              postId := d.postId, author := d.author, title := title',
              description := desc', contentUrl := d.contentUrl, coverUrl := d.coverUrl,
              views := statGet d.stats "views", likes := statGet d.stats "likes",
              comments := statGet d.stats "comments", shares := statGet d.stats "shares",
              saves := statGet d.stats "saves",
              prevViews := 0, prevLikes := 0, prevComments := 0, prevShares := 0,
              prevSaves := 0,
              trendScore := d.trendScore, dimensions := d.dimensions,
              lifecycle := d.lifecycle, priority := d.priority,
              firstSeenAt := now, lastUpdatedAt := now, postCreatedAt := d.postCreatedAt,
              updateCount := 1 }
          .ok ({ acc.1 with posts := acc.1.posts ++ [(upsertUid d.platform d.postId, inserted)] },
            acc.2.1 + 1, acc.2.2)
  | .error e, _ => .error e
  | .ok _, .error e => .error e

/-- The body of the batch_upsert_posts transaction. -/
def batchBody (now : String) (items : List BatchItem) (t : Tables) :
    Except PyErr (Tables × ℕ × ℕ) :=
  items.foldlM (batchStep now) (t, 0, 0)

/-- batch_upsert_posts: empty input short-circuits; otherwise run the body in
one transaction, rolling back fully on an exception. -/
def batchUpsertPosts (now : String) (items : List BatchItem) (t : Tables) :
    Tables × Except PyErr (ℕ × ℕ) :=
  if items.isEmpty then (t, .ok (0, 0))
  else
    match batchBody now items t with
    | .ok (t', n, u) => (t', .ok (n, u))
    | .error e => (t, .error e)

/-! ### Tag aggregation (get_tag_aggregated_stats) -/
/-- The rows the aggregation query scans: posts matching the cleaned platform
and tag. -/
def tagRows (t : Tables) (platform tag : String) : List PostRec :=
  (t.posts.map Prod.snd).filter
    (fun r => r.platform == strLower platform && r.tag == stripHash (strLower tag))

/-- SUM(CASE WHEN update_count = 1 THEN 1 ELSE 0 END). -/
def newPostsCount (rows : List PostRec) : ℕ :=
  (rows.filter (fun r => r.updateCount == 1)).length

/-- The freshness computation of get_tag_aggregated_stats. -/
def freshnessOf (newPosts postCount : ℕ) (batch : ℤ) : ℚ :=
  if batch > 0 then min ((newPosts : ℚ) / (batch : ℚ)) 1
  else if postCount > 0 then (newPosts : ℚ) / (postCount : ℚ)
  else 0

/-- The activity-level thresholds. -/
def activityOf (fr : ℚ) : String :=
  if fr ≥ 7/10 then "very_active"
  else if fr ≥ 2/5 then "active"
  else if fr ≥ 1/5 then "moderate"
  else "stale"

/-- The aggregate snapshot returned by get_tag_aggregated_stats. -/
structure TagAggregate where
  curViews : ℤ := 0
  curLikes : ℤ := 0
  curComments : ℤ := 0
  curShares : ℤ := 0
  curSaves : ℤ := 0
  prevViewsSum : ℤ := 0
  prevLikesSum : ℤ := 0
  prevCommentsSum : ℤ := 0
  prevSharesSum : ℤ := 0
  prevSavesSum : ℤ := 0
  postCount : ℕ := 0
  newPosts : ℕ := 0
  freshnessRate : ℚ := 1
  activityLevel : String := "new"
  avgUpdateCount : Option ℚ := none
deriving DecidableEq, Repr

/-- get_tag_aggregated_stats: an empty match reports freshness 1.0 / "new";
otherwise sums are recomputed by scanning the matching rows and the freshness
rate is rounded to three decimals. -/
def getTagAggregatedStats (t : Tables) (platform tag : String) (currentBatchSize : ℤ) :
    TagAggregate :=
  if (tagRows t platform tag).isEmpty then {}
  else
    { curViews := ((tagRows t platform tag).map (fun r => r.views)).sum,
      curLikes := ((tagRows t platform tag).map (fun r => r.likes)).sum,
      curComments := ((tagRows t platform tag).map (fun r => r.comments)).sum,
      curShares := ((tagRows t platform tag).map (fun r => r.shares)).sum,
      curSaves := ((tagRows t platform tag).map (fun r => r.saves)).sum,
      prevViewsSum := ((tagRows t platform tag).map (fun r => r.prevViews)).sum,
      prevLikesSum := ((tagRows t platform tag).map (fun r => r.prevLikes)).sum,
      prevCommentsSum := ((tagRows t platform tag).map (fun r => r.prevComments)).sum,
      prevSharesSum := ((tagRows t platform tag).map (fun r => r.prevShares)).sum,
      prevSavesSum := ((tagRows t platform tag).map (fun r => r.prevSaves)).sum,
      postCount := (tagRows t platform tag).length,
      newPosts := newPostsCount (tagRows t platform tag),
      freshnessRate := round3 (freshnessOf (newPostsCount (tagRows t platform tag))
        (tagRows t platform tag).length currentBatchSize),
      activityLevel := activityOf (freshnessOf (newPostsCount (tagRows t platform tag))
        (tagRows t platform tag).length currentBatchSize),
      avgUpdateCount := some (round2
        (let avg := (((tagRows t platform tag).map (fun r => (r.updateCount : ℚ))).sum /
          ((tagRows t platform tag).length : ℚ));
         if avg = 0 then 1 else avg)) }

/-! ### C7: transactional rollback -/
def c7Good : BatchItem :=
  { platform := "tiktok", postId := "g1", tag := "dance",
    stats := [("views", 5)], title := .vstr "ok", description := .vstr "" }

def c7Bad : BatchItem :=
  { platform := "tiktok", postId := "b1", tag := "dance",
    stats := [("views", 7)], title := .vjunk }

def c7BadArgs : UpsertArgs :=
  { platform := "tiktok", tag := "dance", postId := "b1", stats := [], title := .vjunk }

def c3Args1 : UpsertArgs :=
  { platform := "tiktok", tag := "dance", postId := "p1",
    stats := [("views", 100), ("likes", 10), ("comments", 1), ("shares", 1), ("saves", 1)] }

def c3Args2 : UpsertArgs :=
  { platform := "tiktok", tag := "dance", postId := "p1",
    stats := [("views", 200), ("likes", 20), ("comments", 2), ("shares", 2), ("saves", 2)] }

def c3Item1 : BatchItem :=
  { platform := "tiktok", tag := "dance", postId := "p1",
    stats := [("views", 100), ("likes", 10), ("comments", 1), ("shares", 1), ("saves", 1)] }

def c3Item2 : BatchItem :=
  { platform := "tiktok", tag := "dance", postId := "p1",
    stats := [("views", 200), ("likes", 20), ("comments", 2), ("shares", 2), ("saves", 2)] }

def c3T0 : Tables :=
  ⟨[("tiktok:p1",
     { platform := "tiktok", tag := "dance", postId := "p1",
       views := 100, likes := 10, comments := 1, shares := 1, saves := 1,
       firstSeenAt := "t1", lastUpdatedAt := "t1", updateCount := 1 })], []⟩

def c3Rec0 : PostRec :=
  { platform := "tiktok", tag := "dance", postId := "p1",
    views := 100, likes := 10, comments := 1, shares := 1, saves := 1,
    firstSeenAt := "t1", lastUpdatedAt := "t1", updateCount := 1 }

def c3OutT : Tables :=
  ⟨[("tiktok:p1",
     { platform := "tiktok", tag := "dance", postId := "p1",
       views := 200, likes := 20, comments := 2, shares := 2, saves := 2,
       prevViews := 100, prevLikes := 10, prevComments := 1, prevShares := 1,
       prevSaves := 1,
       firstSeenAt := "t1", lastUpdatedAt := "t2", updateCount := 2 })], []⟩

def c3V : Bool × Option (List (String × ℤ)) :=
  (false, some [("views", 100), ("likes", 10), ("comments", 1), ("shares", 1), ("saves", 1)])

/-- A single stored post used by the C5 concrete counterexample: one matching
tiktok/dance row seen once. -/
def c5Rec : PostRec :=
  { platform := "tiktok", postId := "p1", tag := "dance", updateCount := 1 }

def c5T : Tables := { posts := [("tiktok:p1", c5Rec)], tagScores := [] }

/-! ### C8: broadcast backpressure isolation (stream_manager.broadcast)

broadcast builds a message dict {event, data, timestamp} and, for every
registered client, applies the topic filter and then queue.put_nowait inside a
try/except that drops the message (with a log line) when the bounded queue is
full. -/
/-- The SSE message dict built at the top of broadcast. -/
structure SseMessage where
  event : String
  data : RawStats
  timestamp : String
deriving DecidableEq, Repr

/-- A client's asyncio-free Queue: bounded when maxsize > 0. -/
structure ClientQueue where
  maxsize : ℕ
  items : List SseMessage
deriving DecidableEq, Repr

/-- The SSEClient record kept in _client_info. -/
structure SSEClient where
  clientId : String
  topics : List String
deriving DecidableEq, Repr

/-- The manager state seen by broadcast: _clients and _client_info. -/
structure StreamState where
  clients : List (String × ClientQueue)
  clientInfo : List (String × SSEClient)
deriving DecidableEq, Repr

/-- Queue.put_nowait: raises queue.Full when the queue is bounded and at
capacity, otherwise appends the message. -/
def putNowait (q : ClientQueue) (m : SseMessage) : Except Unit ClientQueue :=
  if 0 < q.maxsize ∧ q.maxsize ≤ q.items.length then .error ()
  else .ok { q with items := q.items ++ [m] }

/-- The registered-info check of the topic filter: skip the client exactly when
info is present and the topic is not among its subscriptions. -/
def skipByInfo (topic : String) : Option SSEClient → Bool
  | some info => ! info.topics.contains topic
  | none => false

/-- The topic filter of broadcast: `if topic:` (falsy topics disable the
filter), then skip clients whose registered info excludes the topic. -/
def topicSkip (ci : List (String × SSEClient)) (topic : Option String) (cid : String) :
    Bool :=
  match topic with
  | none => false
  | some t => if t = "" then false else skipByInfo t (ci.lookup cid)

/-- The try/except around put_nowait: a full queue drops the message and the
loop moves on; success stores the grown queue. -/
def deliverResult (e : String × ClientQueue) (r : Except Unit ClientQueue) :
    String × ClientQueue :=
  match r with
  | .ok q2 => (e.1, q2)
  | .error _ => e

/-- One iteration of the broadcast loop for one registered client. -/
def broadcastEntry (ci : List (String × SSEClient)) (topic : Option String)
    (m : SseMessage) (e : String × ClientQueue) : String × ClientQueue :=
  if topicSkip ci topic e.1 then e
  else deliverResult e (putNowait e.2 m)

/-- broadcast: a total function on the manager state — every exception inside
the loop body is caught, so it always returns the updated state. -/
def broadcast (st : StreamState) (eventType : String) (data : RawStats)
    (topic : Option String) (timestamp : String) : StreamState :=
  { st with clients :=
      st.clients.map (broadcastEntry st.clientInfo topic ⟨eventType, data, timestamp⟩) }

/-! ### C9: market-stream envelope unwrapping (_kafka_consumer_loop) -/
/-- Decoded JSON payloads as json.loads returns them. -/
inductive Json where
  | obj : List (String × Json) → Json
  | arr : List Json → Json
  | jstr : String → Json
  | jnum : ℚ → Json
  | jbool : Bool → Json
  | jnull : Json

/-- dict.get on a decoded JSON object. -/
def jsonGet (fields : List (String × Json)) (k : String) : Option Json :=
  fields.lookup k

/-- isinstance(x, dict) on an optional payload. -/
def isDictJson : Option Json → Bool
  | some (.obj _) => true
  | _ => false

def isObjJson : Json → Bool
  | .obj _ => true
  | _ => false

/-- Python `'data' in raw_data`: key test on dicts, membership on lists,
substring test on strings, TypeError on non-iterables. -/
def pyInData : Json → Except PyErr Bool
  | .obj fields => .ok (fields.any (fun kv => kv.1 == "data"))
  | .arr elems =>
      .ok (elems.any (fun j => match j with | .jstr s => s == "data" | _ => false))
  | .jstr s => .ok (strContainsStr s "data")
  | _ => .error .typeError

/-- raw_data.get('data'): only dicts have .get — AttributeError otherwise. -/
def pyGetData : Json → Except PyErr (Option Json)
  | .obj fields => .ok (jsonGet fields "data")
  | _ => .error .attributeError

/-- The market-stream branch up to and including the first use of the unwrapped
payload (`actual_data.get("type", "NO_TYPE")`, which runs before any
broadcast): detect the wrapper, unwrap when `data` maps to a dict, and raise
when the payload in hand is not a dict. -/
def marketUnwrap (raw : Json) : Except PyErr Json :=
  match pyInData raw with
  | .error e => .error e
  | .ok hasData =>
      match
        (if hasData then
          match pyGetData raw with
          | .error e => .error e
          | .ok d => if isDictJson d then .ok (d.getD Json.jnull) else .ok raw
        else .ok raw : Except PyErr Json) with
      | .error e => .error e
      | .ok a =>
          match a with
          | .obj f => .ok (Json.obj f)
          | _ => .error PyErr.attributeError

/-- A wrapped crawler event used to exercise the unwrap branch. -/
def c9Inner : List (String × Json) := [("platform", Json.jstr "tiktok")]

def c9Fields : List (String × Json) :=
  [("event_id", Json.jstr "e1"), ("event_type", Json.jstr "social"),
   ("data", Json.obj c9Inner), ("source", Json.jstr "crawler")]

/-- The two registered clients of the C8 witness: a full bounded queue and an
empty one, both subscribed to both default topics. -/
def c8Full : ClientQueue := { maxsize := 1, items := [⟨"e0", [], "t0"⟩] }

def c8Free : ClientQueue := { maxsize := 500, items := [] }

def c8Info1 : SSEClient := { clientId := "c1", topics := ["vks-scores", "market-stream"] }

def c8Info2 : SSEClient := { clientId := "c2", topics := ["vks-scores", "market-stream"] }

/-- The LinkedIn C4 counterexample inputs: current views 21, one previous dict
with views 7 (a 200% increase to 21), one with views 30 (a 30% decrease to 21). -/
def c4Raw : RawStats := [("views", .vnum 21)]

def c4PrevUp : RawStats := [("views", .vnum 7)]

def c4PrevDown : RawStats := [("views", .vnum 30)]

/-- The C4 witness inputs: TikTok stats (21, 42, 63, 84, 105), previous dicts
exactly one third resp. ten sevenths of them. -/
def c4WRaw : RawStats :=
  [("views", .vnum 21), ("likes", .vnum 42), ("comments", .vnum 63),
   ("shares", .vnum 84), ("saves", .vnum 105)]

def c4WPrevUp : RawStats :=
  [("views", .vnum 7), ("likes", .vnum 14), ("comments", .vnum 21),
   ("shares", .vnum 28), ("saves", .vnum 35)]

def c4WPrevDown : RawStats :=
  [("views", .vnum 30), ("likes", .vnum 60), ("comments", .vnum 90),
   ("shares", .vnum 120), ("saves", .vnum 150)]

def c4WMetrics : Metrics := ⟨21, 42, 63, 84, 105⟩

def c4WUp : Metrics := ⟨7, 14, 21, 28, 35⟩

def c4WDown : Metrics := ⟨30, 60, 90, 120, 150⟩

theorem velStep_eq_contrib (c : PlatformMetricMapping) (m pm : Metrics) (acc : VelAcc)
    (e : MetricName × ℚ) :
    velStep c m pm acc e =
      match specContrib c m pm e with
      | none => acc
      | some wg => ⟨acc.raw + wg.1 * wg.2, acc.total + wg.1, true⟩ := by
  simp only [velStep, specContrib, specGrowth]
  by_cases h1 : platWeight c e.1 = 0
  · simp [h1]
  · by_cases h2 : pm.get e.1 > 0
    · have hsg : safeGrowth (m.get e.1) (pm.get e.1) = (m.get e.1 - pm.get e.1) / pm.get e.1 := by
        unfold safeGrowth
        rw [if_neg (not_le.mpr h2)]
      simp [h1, h2, hsg]
    · by_cases h3 : m.get e.1 > 0
      · simp [h1, h2, h3]
      · simp [h1, h2, h3]

theorem foldl_velStep (c : PlatformMetricMapping) (m pm : Metrics)
    (l : List (MetricName × ℚ)) (acc : VelAcc) :
    l.foldl (velStep c m pm) acc =
      ⟨acc.raw + ((l.filterMap (specContrib c m pm)).map (fun x => x.1 * x.2)).sum,
       acc.total + ((l.filterMap (specContrib c m pm)).map Prod.fst).sum,
       acc.valid || !(l.filterMap (specContrib c m pm)).isEmpty⟩ := by
  induction l generalizing acc with
  | nil => simp
  | cons e t ih =>
      rw [List.foldl_cons, velStep_eq_contrib]
      cases h : specContrib c m pm e with
      | none =>
          simp only [h, List.filterMap_cons]
          exact ih acc
      | some wg =>
          simp only [h, List.filterMap_cons, ih, List.map_cons, List.sum_cons,
            List.isEmpty_cons, Bool.not_false, Bool.or_true, Bool.true_or, VelAcc.mk.injEq]
          refine ⟨by ring, by ring, trivial⟩

/-- Platform compensation weights are never negative. -/
theorem platWeight_nonneg (p : Platform) (n : MetricName) :
    0 ≤ platWeight (platformConfig p) n := by
  cases p <;> cases n <;> norm_num [platWeight, platformConfig]

/-- Every contribution produced by specContrib on the real velocity list carries a
strictly positive effective weight. -/
theorem specContrib_weight_pos (p : Platform) (m pm : Metrics) (x : ℚ × ℚ)
    (hx : x ∈ velocityList.filterMap (specContrib (platformConfig p) m pm)) : 0 < x.1 := by
  rw [List.mem_filterMap] at hx
  obtain ⟨e, he, hce⟩ := hx
  simp only [specContrib] at hce
  by_cases hpw : platWeight (platformConfig p) e.1 = 0
  · rw [if_pos hpw] at hce; cases hce
  · rw [if_neg hpw] at hce
    obtain ⟨g, _, hxg⟩ := Option.map_eq_some'.mp hce
    have hpw' : 0 < platWeight (platformConfig p) e.1 :=
      lt_of_le_of_ne (platWeight_nonneg p e.1) (Ne.symm hpw)
    have he2 : 0 < e.2 := by
      simp only [velocityList, List.mem_cons] at he
      rcases he with h | h | h | h | h | h
      · rw [h]; norm_num
      · rw [h]; norm_num
      · rw [h]; norm_num
      · rw [h]; norm_num
      · rw [h]; norm_num
      · exact absurd h (List.not_mem_nil e)
    rw [← hxg]
    exact mul_pos he2 hpw'

/-- C2: the compute_velocity loop computes exactly the spec-side filtered
weighted average.  For every metrics pair: previous > 0 contributes
(curr-prev)/prev clamped to [-1,3]; previous 0 with current > 0 contributes 2.0;
both 0 (or platform weight 0) is excluded from numerator and denominator; with
no contribution (or absent prev_metrics) V = 0.5; otherwise
V = clamp((weighted average growth + 1)/4, 0, 1). -/
theorem claim2_velocity_characterization (m : Metrics) (pm? : Option Metrics) (p : Platform) :
    computeVelocity m pm? p = specVelocity m pm? p := by
  cases pm? with
  | none => rfl
  | some pm =>
      simp only [computeVelocity, specVelocity, foldl_velStep]
      set cs := velocityList.filterMap (specContrib (platformConfig p) m pm) with hcs
      cases h : cs.isEmpty with
      | true =>
          have : cs = [] := List.isEmpty_iff.mp h
          simp [this]
      | false =>
          have hne : cs ≠ [] := by
            intro hnil; rw [hnil] at h; exact absurd h (by simp)
          have hpos : 0 < (cs.map Prod.fst).sum := by
            apply List.sum_pos
            · intro w hw
              rw [List.mem_map] at hw
              obtain ⟨x, hx, rfl⟩ := hw
              exact specContrib_weight_pos p m pm x (hcs ▸ hx)
            · simpa using hne
          have hsum_ne : (cs.map Prod.fst).sum ≠ 0 := ne_of_gt hpos
          simp [h, hsum_ne, zero_add]

/-! ### Numeric evaluation helpers -/
theorem clamp_of_le_of_le {x lo hi : ℚ} (h1 : lo ≤ x) (h2 : x ≤ hi) : clamp x lo hi = x := by
  unfold clamp
  rw [min_eq_right h2, max_eq_right h1]

theorem round_eq_of (q : ℚ) (n : ℤ) (h1 : (n : ℚ) ≤ q + 1/2) (h2 : q + 1/2 < (n : ℚ) + 1) :
    round q = n := by
  rw [round_eq]
  refine Int.floor_eq_iff.mpr ⟨h1, ?_⟩
  exact_mod_cast h2

/-- A keyword that matches nothing in the profile table falls back to the default profile. -/
theorem getKeywordProfile_of_no_match (kw : String)
    (h1 : keywordProfiles.lookup (normKeyword kw) = none)
    (h2 : findSubstrMatch keywordProfiles (normKeyword kw) = none) :
    getKeywordProfile kw = defaultProfile := by
  simp [getKeywordProfile, h1, h2]

/-- C1: Score(keyword="x", platform="tiktok", all-zero stats, prev=None, posts=0,
freshness=0.5) returns H=0, V=0.5, D=0.25, F=0.5, M=0.5, R=0.12 and
trend_score=33, whatever value the abstract log1p takes. -/
theorem claim1_neutral_prior (L : ℚ → ℚ) :
    (computeTrendScore L "x" "tiktok" c1RawZero none 0 (1/2)).map
      (fun r => (r.H, r.V, r.D, r.F, r.M, r.R, r.trendScore)) =
    some (0, 1/2, 1/4, 1/2, 1/2, 3/25, 33) := by
  have hplat : detectPlatform "tiktok" = Platform.tiktok := by decide
  have hm : extractMetrics c1RawZero Platform.tiktok = some ⟨0, 0, 0, 0, 0⟩ := by decide
  have hprof : getKeywordProfile "x" = defaultProfile :=
    getKeywordProfile_of_no_match "x" (by decide) (by decide)
  have hH : computeHotness L ⟨0, 0, 0, 0, 0⟩ 0 Platform.tiktok = 0 := by
    simp [computeHotness, viewsNormOf, engagementOf, postsNormOf, platformConfig, logNorm]
    norm_num [clamp, min_def, max_def]
  have hV : computeVelocity ⟨0, 0, 0, 0, 0⟩ none Platform.tiktok = 1/2 := by
    simp [computeVelocity]
  have hD : computeDensity L 0 0 (1/2) true = 1/4 := by
    simp [computeDensity, logNorm]
    norm_num [clamp, min_def, max_def]
  have hF : computeFeasibility "x" = 1/2 := by
    simp [computeFeasibility, hprof, defaultProfile]
    norm_num [clamp, min_def, max_def]
  have hMb : monetBase "x" Platform.tiktok = 1/2 := by
    unfold monetBase
    rw [hprof,
      if_neg (by decide : ¬ (Platform.tiktok = Platform.linkedin)),
      if_neg (by decide : ¬ (Platform.tiktok = Platform.reddit)),
      if_neg (by decide : ¬ (Platform.tiktok = Platform.instagram)),
      if_neg (by decide : ¬ (Platform.tiktok = Platform.twitter))]
    norm_num [defaultProfile]
  have hMbo : monetBonus ⟨0, 0, 0, 0, 0⟩ Platform.tiktok = 0 := by
    unfold monetBonus
    rw [if_neg (by decide : ¬ (Platform.tiktok = Platform.linkedin)),
      if_neg (by decide : ¬ (Platform.tiktok = Platform.reddit)),
      if_neg (by decide : ¬ (Platform.tiktok = Platform.instagram)),
      if_neg (by decide : ¬ (Platform.tiktok = Platform.twitter)),
      if_neg (by norm_num : ¬ ((⟨0, 0, 0, 0, 0⟩ : Metrics).views ≥ 50000000)),
      if_neg (by norm_num : ¬ ((⟨0, 0, 0, 0, 0⟩ : Metrics).views ≥ 10000000))]
  have hM : computeMonetization "x" ⟨0, 0, 0, 0, 0⟩ Platform.tiktok = 1/2 := by
    unfold computeMonetization
    rw [hMb, hMbo, show ((1:ℚ)/2 + 0) = 1/2 by norm_num]
    exact clamp_of_le_of_le (by norm_num) (by norm_num)
  have hRc : riskCompetition ⟨0, 0, 0, 0, 0⟩ 0 Platform.tiktok = 0 := by
    unfold riskCompetition
    rw [if_neg (by decide : ¬ (Platform.tiktok = Platform.linkedin)),
      if_neg (by decide : ¬ (Platform.tiktok = Platform.reddit)),
      if_neg (by norm_num : ¬ ((0:ℚ) > 5000 ∧ (⟨0, 0, 0, 0, 0⟩ : Metrics).views > 50000000)),
      if_neg (by norm_num : ¬ ((0:ℚ) > 1000 ∧ (⟨0, 0, 0, 0, 0⟩ : Metrics).views > 10000000)),
      if_neg (by norm_num : ¬ ((0:ℚ) > 100))]
  have hR : computeRisk "x" ⟨0, 0, 0, 0, 0⟩ 0 Platform.tiktok = 3/25 := by
    unfold computeRisk
    rw [hprof, hRc, show ((3:ℚ)/5 * defaultProfile.ipRisk + 2/5 * 0) = 3/25 by
      norm_num [defaultProfile]]
    exact clamp_of_le_of_le (by norm_num) (by norm_num)
  have hr0 : round3 (0 : ℚ) = 0 := by
    unfold round3
    rw [round_eq_of (0 * 1000) 0 (by norm_num) (by norm_num)]
    norm_num
  have hr12 : round3 ((1 : ℚ)/2) = 1/2 := by
    unfold round3
    rw [round_eq_of (1/2 * 1000) 500 (by norm_num) (by norm_num)]
    norm_num
  have hr14 : round3 ((1 : ℚ)/4) = 1/4 := by
    unfold round3
    rw [round_eq_of (1/4 * 1000) 250 (by norm_num) (by norm_num)]
    norm_num
  have hr325 : round3 ((3 : ℚ)/25) = 3/25 := by
    unfold round3
    rw [round_eq_of (3/25 * 1000) 120 (by norm_num) (by norm_num)]
    norm_num
  have hclamp : clamp ((1:ℚ)/5 * 0 + 3/10 * (1/2) + 3/20 * (1/4) + 3/20 * (1/2) +
      1/5 * (1/2) - 1/4 * (3/25)) 0 1 = 133/400 := by
    rw [show ((1:ℚ)/5 * 0 + 3/10 * (1/2) + 3/20 * (1/4) + 3/20 * (1/2) +
      1/5 * (1/2) - 1/4 * (3/25)) = 133/400 by norm_num]
    exact clamp_of_le_of_le (by norm_num) (by norm_num)
  simp only [computeTrendScore, prevMetricsOf, hplat, hm, isFirstCrawlOf, scoreCore,
    Option.map_some', hH, hV, hD, hF, hM, hR, hclamp,
    show (100 : ℚ) * (133/400) = 133/4 by norm_num,
    round_eq_of (133/4) 33 (by norm_num) (by norm_num), hr0, hr12, hr14, hr325]

/-! ### C10: first-crawl freshness vs velocity history -/
theorem computeDensity_firstCrawl (L : ℚ → ℚ) (posts uniqueCreators f : ℚ) :
    computeDensity L posts uniqueCreators f true =
      computeDensity L posts uniqueCreators (1/2) false := rfl

/-- C10: when prev_raw_stats is supplied with views, likes and comments all 0,
the call counts as a first crawl: D is computed with the neutral freshness 0.5
no matter what freshness_rate was passed, while V is still computed from the
extracted previous metrics. -/
theorem claim10_first_crawl_split (L : ℚ → ℚ) (kw pstr : String) (raw prevRaw : RawStats)
    (posts f1 f2 : ℚ) (m pm : Metrics)
    (hv : prevRaw.lookup "views" = some (.vnum 0))
    (hl : prevRaw.lookup "likes" = some (.vnum 0))
    (hc : prevRaw.lookup "comments" = some (.vnum 0))
    (hm : extractMetrics raw (detectPlatform pstr) = some m)
    (hpm : extractMetrics prevRaw (detectPlatform pstr) = some pm) :
    (computeTrendScore L kw pstr raw (some prevRaw) posts f1).map (fun r => r.D) =
      (computeTrendScore L kw pstr raw (some prevRaw) posts f2).map (fun r => r.D) ∧
    (computeTrendScore L kw pstr raw (some prevRaw) posts f1).map (fun r => r.D) =
      some (round3 (computeDensity L posts 0 (1/2) false)) ∧
    (computeTrendScore L kw pstr raw (some prevRaw) posts f1).map (fun r => r.V) =
      some (round3 (computeVelocity m (some pm) (detectPlatform pstr))) := by
  have hne : prevRaw.isEmpty = false := by
    cases prevRaw with
    | nil => simp [List.lookup] at hv
    | cons kv t => rfl
  have hfc : isFirstCrawlOf (some prevRaw) = true := by
    simp [isFirstCrawlOf, pyGetEqZero, hv, hl, hc]
  have hpmo : prevMetricsOf (some prevRaw) (detectPlatform pstr) = some (some pm) := by
    simp [prevMetricsOf, hne, hpm]
  simp only [computeTrendScore, hm, hpmo, hfc, scoreCore, Option.map_some',
    computeDensity_firstCrawl]
  exact ⟨trivial, trivial, trivial⟩

theorem claim10_witness :
    (c10Prev.lookup "views" = some (.vnum 0) ∧
     c10Prev.lookup "likes" = some (.vnum 0) ∧
     c10Prev.lookup "comments" = some (.vnum 0) ∧
     extractMetrics c10Raw (detectPlatform "tiktok") = some ⟨10, 0, 0, 10, 0⟩ ∧
     extractMetrics c10Prev (detectPlatform "tiktok") = some ⟨0, 0, 0, 5, 0⟩) ∧
    ((computeTrendScore zeroLog "x" "tiktok" c10Raw (some c10Prev) 0 (1/4)).map
        (fun r => r.D) =
      (computeTrendScore zeroLog "x" "tiktok" c10Raw (some c10Prev) 0 (3/4)).map
        (fun r => r.D) ∧
     (computeTrendScore zeroLog "x" "tiktok" c10Raw (some c10Prev) 0 (1/4)).map
        (fun r => r.D) =
      some (round3 (computeDensity zeroLog 0 0 (1/2) false)) ∧
     (computeTrendScore zeroLog "x" "tiktok" c10Raw (some c10Prev) 0 (1/4)).map
        (fun r => r.V) =
      some (round3 (computeVelocity ⟨10, 0, 0, 10, 0⟩ (some ⟨0, 0, 0, 5, 0⟩)
        (detectPlatform "tiktok")))) :=
  ⟨⟨by decide, by decide, by decide, by decide, by decide⟩,
   claim10_first_crawl_split zeroLog "x" "tiktok" c10Raw c10Prev 0 (1/4) (3/4)
     ⟨10, 0, 0, 10, 0⟩ ⟨0, 0, 0, 5, 0⟩ (by decide) (by decide) (by decide) (by decide)
     (by decide)⟩

theorem coerceStat_isSome_of_okStat {v : PyVal} (h : okStat v = true) :
    (coerceStat v).isSome := by
  cases v with
  | vnum q =>
      by_cases hq : q = 0 <;> simp [coerceStat, pyTruthy, pyFloat, hq]
  | vbool b => cases b <;> simp [coerceStat, pyTruthy, pyFloat]
  | vnone => simp [coerceStat, pyTruthy]
  | vstr s =>
      simp only [okStat, pyTruthy, Bool.not_not] at h
      simp [coerceStat, pyTruthy, h]
  | vjunk => simp [okStat, pyTruthy] at h

theorem lookup_okStat {raw : RawStats} (h : ∀ kv ∈ raw, okStat kv.2 = true) (k : String)
    {v : PyVal} (hl : raw.lookup k = some v) : okStat v = true := by
  induction raw with
  | nil => simp [List.lookup] at hl
  | cons kv t ih =>
      rw [List.lookup] at hl
      cases hk : (k == kv.1) with
      | true =>
          simp only [hk] at hl
          cases hl
          exact h kv (List.mem_cons_self kv t)
      | false =>
          simp only [hk] at hl
          exact ih (fun x hx => h x (List.mem_cons_of_mem kv hx)) hl

theorem fieldPresent_okStat {raw : RawStats} (h : ∀ kv ∈ raw, okStat kv.2 = true)
    (f : Option String) {v : PyVal} (hf : fieldPresent raw f = some v) : okStat v = true := by
  cases f with
  | none => simp [fieldPresent] at hf
  | some k => exact lookup_okStat h k hf

theorem getStat_isSome {raw : RawStats} (h : ∀ kv ∈ raw, okStat kv.2 = true) (f : String) :
    (getStat raw f).isSome := by
  unfold getStat
  cases hl : raw.lookup f with
  | none => rfl
  | some v => exact coerceStat_isSome_of_okStat (lookup_okStat h f hl)

theorem extractViews_isSome {raw : RawStats} (h : ∀ kv ∈ raw, okStat kv.2 = true)
    (p : Platform) (c : PlatformMetricMapping) : (extractViews raw p c).isSome := by
  unfold extractViews
  cases hf : fieldPresent raw c.viewsField with
  | some v => exact coerceStat_isSome_of_okStat (fieldPresent_okStat h _ hf)
  | none =>
      cases p <;> cases hs : c.scoreField <;>
        simp [Option.isSome_map, getStat_isSome h]

theorem extractLikes_isSome {raw : RawStats} (h : ∀ kv ∈ raw, okStat kv.2 = true)
    (c : PlatformMetricMapping) : (extractLikes raw c).isSome := by
  unfold extractLikes
  cases hf : fieldPresent raw c.likesField with
  | some v => exact coerceStat_isSome_of_okStat (fieldPresent_okStat h _ hf)
  | none =>
      cases hf2 : fieldPresent raw c.upvotesField with
      | some v => exact coerceStat_isSome_of_okStat (fieldPresent_okStat h _ hf2)
      | none =>
          cases hf3 : fieldPresent raw c.scoreField with
          | some v => exact coerceStat_isSome_of_okStat (fieldPresent_okStat h _ hf3)
          | none => rfl

theorem extractStd_isSome {raw : RawStats} (h : ∀ kv ∈ raw, okStat kv.2 = true)
    (f : Option String) : (extractStd raw f).isSome := by
  unfold extractStd
  cases hf : fieldPresent raw f with
  | some v => exact coerceStat_isSome_of_okStat (fieldPresent_okStat h _ hf)
  | none => rfl

theorem extractMetrics_isSome {raw : RawStats} (h : ∀ kv ∈ raw, okStat kv.2 = true)
    (p : Platform) : (extractMetrics raw p).isSome := by
  obtain ⟨v, hv⟩ := Option.isSome_iff_exists.mp (extractViews_isSome h p (platformConfig p))
  obtain ⟨l, hl⟩ := Option.isSome_iff_exists.mp (extractLikes_isSome h (platformConfig p))
  obtain ⟨cm, hcm⟩ :=
    Option.isSome_iff_exists.mp (extractStd_isSome h (platformConfig p).commentsField)
  obtain ⟨sh, hsh⟩ :=
    Option.isSome_iff_exists.mp (extractStd_isSome h (platformConfig p).sharesField)
  obtain ⟨sv, hsv⟩ :=
    Option.isSome_iff_exists.mp (extractStd_isSome h (platformConfig p).savesField)
  simp [extractMetrics, hv, hl, hcm, hsh, hsv]

/-- C6 counterexample: a truthy non-numeric stat value makes float() raise, so the
call does not return a result (the claim says it never raises and coerces to 0). -/
theorem claim6_counterexample :
    computeTrendScore zeroLog "x" "tiktok" [("views", PyVal.vjunk)] none 0 (1/2) = none := by
  decide

/-- C6 (amended): for every keyword and platform string (recognized or not),
compute_trend_score returns a result whenever all stat values are numbers,
booleans or falsy values (None, False, 0, the empty string); the falsy
non-numbers coerce to 0.  A truthy non-numeric value makes float() raise
instead. -/
theorem claim6_no_raise_on_numeric (L : ℚ → ℚ) (kw pstr : String) (raw : RawStats)
    (prevRaw : Option RawStats) (posts fresh : ℚ)
    (hraw : ∀ kv ∈ raw, okStat kv.2 = true)
    (hprev : ∀ pr, prevRaw = some pr → ∀ kv ∈ pr, okStat kv.2 = true) :
    (∃ r, computeTrendScore L kw pstr raw prevRaw posts fresh = some r) ∧
    coerceStat .vnone = some 0 ∧ coerceStat (.vbool false) = some 0 ∧
    coerceStat (.vnum 0) = some 0 ∧ coerceStat (.vstr "") = some 0 := by
  refine ⟨?_, by decide, by decide, by decide, by decide⟩
  obtain ⟨m, hm⟩ := Option.isSome_iff_exists.mp (extractMetrics_isSome hraw (detectPlatform pstr))
  have hpmo : ∃ pm?, prevMetricsOf prevRaw (detectPlatform pstr) = some pm? := by
    cases prevRaw with
    | none => exact ⟨none, rfl⟩
    | some pr =>
        cases hemp : pr.isEmpty with
        | true => exact ⟨none, by simp [prevMetricsOf, hemp]⟩
        | false =>
            obtain ⟨pm, hpm⟩ := Option.isSome_iff_exists.mp
              (extractMetrics_isSome (hprev pr rfl) (detectPlatform pstr))
            exact ⟨some pm, by simp [prevMetricsOf, hemp, hpm]⟩
  obtain ⟨pm?, hpmo⟩ := hpmo
  refine ⟨scoreCore L kw (detectPlatform pstr) m pm? (isFirstCrawlOf prevRaw) posts fresh, ?_⟩
  simp [computeTrendScore, hm, hpmo]

theorem claim6_witness :
    (∀ kv ∈ c6Raw, okStat kv.2 = true) ∧
    ((∃ r, computeTrendScore zeroLog "kw" "someplatform" c6Raw none 0 (1/2) = some r) ∧
     coerceStat .vnone = some 0 ∧ coerceStat (.vbool false) = some 0 ∧
     coerceStat (.vnum 0) = some 0 ∧ coerceStat (.vstr "") = some 0) :=
  ⟨by decide,
   claim6_no_raise_on_numeric zeroLog "kw" "someplatform" c6Raw none 0 (1/2) (by decide)
     (fun pr hpr => by cases hpr)⟩

/-- C7: a failure inside the upsert_post or batch_upsert_posts transaction rolls
back completely: the committed post and tag tables are returned exactly as they
were.  Concretely, a batch whose second item raises while slicing its title
leaves an empty store empty (even though the first item alone would have
inserted a row), and a single upsert whose title raises changes nothing. -/
theorem claim7_transaction_rollback :
    (∀ (now : String) (a : UpsertArgs) (t : Tables) (e : PyErr),
        (upsertPost now a t).2 = .error e → (upsertPost now a t).1 = t) ∧
    (∀ (now : String) (items : List BatchItem) (t : Tables) (e : PyErr),
        (batchUpsertPosts now items t).2 = .error e → (batchUpsertPosts now items t).1 = t) ∧
    batchUpsertPosts "t0" [c7Good, c7Bad] emptyTables = (emptyTables, .error .typeError) ∧
    (batchUpsertPosts "t0" [c7Good] emptyTables).1 ≠ emptyTables ∧
    upsertPost "t0" c7BadArgs emptyTables = (emptyTables, .error .typeError) := by
  refine ⟨?_, ?_, by decide, by decide, by decide⟩
  · intro now a t e h
    unfold upsertPost at h ⊢
    cases hb : upsertPostBody now a t with
    | ok out =>
        obtain ⟨t', isNew, prev⟩ := out
        rw [hb] at h
        simp at h
    | error e2 => rfl
  · intro now items t e h
    unfold batchUpsertPosts at h ⊢
    cases hemp : items.isEmpty with
    | true => rfl
    | false =>
        cases hb : batchBody now items t with
        | ok out =>
            obtain ⟨t', n, u⟩ := out
            rw [hb] at h
            simp [hemp] at h
        | error e2 => simp

/-! ### C3: the previous-snapshot invariant -/
/-- An in-place UPDATE of the row with a key that is present yields that key
mapped to the new record. -/
theorem lookup_replaceKey (k : String) (v : PostRec) (l : PostTable)
    (h : (l.lookup k).isSome) : (replaceKey k v l).lookup k = some v := by
  induction l with
  | nil => simp [List.lookup] at h
  | cons kv t ih =>
      rw [replaceKey, List.map_cons]
      by_cases hk : kv.1 = k
      · rw [if_pos hk, List.lookup]
        have hbeq : (k == kv.1) = true := beq_iff_eq.mpr hk.symm
        simp only [hbeq]
      · rw [if_neg hk, List.lookup]
        have hk' : (k == kv.1) = false := by
          simp only [beq_eq_false_iff_ne, ne_eq]
          exact fun hx => hk hx.symm
        simp only [hk']
        rw [List.lookup] at h
        simp only [hk'] at h
        have := ih h
        rw [replaceKey] at this
        exact this

/-- UPDATE ... WHERE id = k resolves every other id exactly as before. -/
theorem lookup_replaceKey_ne (u k : String) (v : PostRec) (l : PostTable)
    (h : (u == k) = false) : (replaceKey k v l).lookup u = l.lookup u := by
  induction l with
  | nil => rfl
  | cons kv t ih =>
      rw [replaceKey, List.map_cons]
      by_cases hk : kv.1 = k
      · rw [if_pos hk, List.lookup, List.lookup]
        have hbeq : (u == kv.1) = false := by
          rw [hk]
          exact h
        simp only [hbeq]
        rw [replaceKey] at ih
        exact ih
      · rw [if_neg hk, List.lookup, List.lookup]
        cases hbeq : (u == kv.1)
        · rw [replaceKey] at ih
          exact ih
        · rfl

/-- An INSERT appended at the end resolves every other id exactly as before. -/
theorem lookup_append_ne (u k : String) (v : PostRec) (l : PostTable)
    (h : (u == k) = false) : (l ++ [(k, v)]).lookup u = l.lookup u := by
  induction l with
  | nil => simp [List.lookup, h]
  | cons kv t ih =>
      rw [List.cons_append, List.lookup, List.lookup]
      cases hbeq : (u == kv.1)
      · exact ih
      · rfl

/-- An id absent from the table resolves to the appended fresh row. -/
theorem lookup_append_self (k : String) (v : PostRec) (l : PostTable)
    (h : l.lookup k = none) : (l ++ [(k, v)]).lookup k = some v := by
  induction l with
  | nil => simp [List.lookup]
  | cons kv t ih =>
      rw [List.cons_append, List.lookup]
      rw [List.lookup] at h
      cases hbeq : (k == kv.1)
      · rw [hbeq] at h
        exact ih h
      · rw [hbeq] at h
        exact Option.noConfusion h

/-- Update path of the upsert_post body: prev := old current, current := new
stats, update_count incremented. -/
theorem upsertBody_update_spec (now : String) (a : UpsertArgs) (t : Tables) (r : PostRec)
    (out : Tables × Bool × Option (List (String × ℤ)))
    (hlook : t.posts.lookup (upsertUid a.platform a.postId) = some r)
    (hout : upsertPostBody now a t = .ok out) :
    ((out.1.posts.lookup (upsertUid a.platform a.postId)).map
        (fun r2 => (r2.prevViews, r2.prevLikes, r2.prevComments, r2.prevShares,
          r2.prevSaves, r2.updateCount)) =
      some (r.views, r.likes, r.comments, r.shares, r.saves, r.updateCount + 1) ∧
     (out.1.posts.lookup (upsertUid a.platform a.postId)).map
        (fun r2 => (r2.views, r2.likes, r2.comments, r2.shares, r2.saves)) =
      some (statGet a.stats "views", statGet a.stats "likes", statGet a.stats "comments",
        statGet a.stats "shares", statGet a.stats "saves")) := by
  unfold upsertPostBody at hout
  rw [hlook] at hout
  cases hbt : bindDisplay a.title r.title with
  | error e =>
      simp only [hbt] at hout
      exact (Except.noConfusion hout)
  | ok title2 =>
      cases hbd : bindDisplay a.description r.description with
      | error e =>
          simp only [hbt, hbd] at hout
          exact (Except.noConfusion hout)
      | ok desc2 =>
          simp only [hbt, hbd] at hout
          cases hout
          rw [lookup_replaceKey _ _ _ (by simp [hlook])]
          simp

/-- Insert path of the upsert_post body: prev counters start at 0 and
update_count at 1. -/
theorem upsertBody_insert_spec (now : String) (a : UpsertArgs) (t : Tables)
    (out : Tables × Bool × Option (List (String × ℤ)))
    (hlook : t.posts.lookup (upsertUid a.platform a.postId) = none)
    (hout : upsertPostBody now a t = .ok out) :
    ((out.1.posts.lookup (upsertUid a.platform a.postId)).map
        (fun r2 => (r2.prevViews, r2.prevLikes, r2.prevComments, r2.prevShares,
          r2.prevSaves, r2.updateCount)) = some (0, 0, 0, 0, 0, 1) ∧
     (out.1.posts.lookup (upsertUid a.platform a.postId)).map
        (fun r2 => (r2.views, r2.likes, r2.comments, r2.shares, r2.saves)) =
      some (statGet a.stats "views", statGet a.stats "likes", statGet a.stats "comments",
        statGet a.stats "shares", statGet a.stats "saves")) := by
  unfold upsertPostBody at hout
  rw [hlook] at hout
  cases hbt : pySlice a.title 200 with
  | error e =>
      simp only [hbt] at hout
      exact (Except.noConfusion hout)
  | ok title2 =>
      cases hbd : pySlice a.description 500 with
      | error e =>
          simp only [hbt, hbd] at hout
          exact (Except.noConfusion hout)
      | ok desc2 =>
          simp only [hbt, hbd] at hout
          cases hout
          rw [lookup_append_self _ _ _ hlook]
          simp

/-- A successful upsert_post body never touches a row with a different id. -/
theorem upsertBody_frame (now : String) (a : UpsertArgs) (t : Tables)
    (out : Tables × Bool × Option (List (String × ℤ))) (u : String)
    (hu : (u == upsertUid a.platform a.postId) = false)
    (hout : upsertPostBody now a t = .ok out) :
    out.1.posts.lookup u = t.posts.lookup u := by
  unfold upsertPostBody at hout
  cases hlook : t.posts.lookup (upsertUid a.platform a.postId) with
  | some ex =>
      rw [hlook] at hout
      cases hbt : bindDisplay a.title ex.title with
      | error e =>
          simp only [hbt] at hout
          exact (Except.noConfusion hout)
      | ok title2 =>
          cases hbd : bindDisplay a.description ex.description with
          | error e =>
              simp only [hbt, hbd] at hout
              exact (Except.noConfusion hout)
          | ok desc2 =>
              simp only [hbt, hbd] at hout
              cases hout
              exact lookup_replaceKey_ne _ _ _ _ hu
  | none =>
      rw [hlook] at hout
      cases hbt : pySlice a.title 200 with
      | error e =>
          simp only [hbt] at hout
          exact (Except.noConfusion hout)
      | ok title2 =>
          cases hbd : pySlice a.description 500 with
          | error e =>
              simp only [hbt, hbd] at hout
              exact (Except.noConfusion hout)
          | ok desc2 =>
              simp only [hbt, hbd] at hout
              cases hout
              exact lookup_append_ne _ _ _ _ hu

/-- Inverting the upsert_post wrapper: a non-error result comes from a
successful transaction body producing exactly the returned tables. -/
theorem upsertPost_ok_body {now : String} {a : UpsertArgs} {t t' : Tables}
    {v : Bool × Option (List (String × ℤ))}
    (h : upsertPost now a t = (t', Except.ok v)) :
    upsertPostBody now a t = .ok (t', v.1, v.2) := by
  unfold upsertPost at h
  cases hb : upsertPostBody now a t with
  | error e =>
      rw [hb] at h
      injection h with h1 h2
      exact Except.noConfusion h2
  | ok res =>
      obtain ⟨t2, isNew, prev⟩ := res
      rw [hb] at h
      injection h with h1 h2
      injection h2 with h3
      rw [← h1, ← h3]

/-- Update path of one batch_upsert_posts loop iteration. -/
theorem batchStep_update_spec (now : String) (d : BatchItem) (t : Tables) (c1 c2 : ℕ)
    (r : PostRec) (out : Tables × ℕ × ℕ)
    (hlook : t.posts.lookup (upsertUid d.platform d.postId) = some r)
    (hout : batchStep now (t, c1, c2) d = .ok out) :
    ((out.1.posts.lookup (upsertUid d.platform d.postId)).map
        (fun r2 => (r2.prevViews, r2.prevLikes, r2.prevComments, r2.prevShares,
          r2.prevSaves, r2.updateCount)) =
      some (r.views, r.likes, r.comments, r.shares, r.saves, r.updateCount + 1) ∧
     (out.1.posts.lookup (upsertUid d.platform d.postId)).map
        (fun r2 => (r2.views, r2.likes, r2.comments, r2.shares, r2.saves)) =
      some (statGet d.stats "views", statGet d.stats "likes", statGet d.stats "comments",
        statGet d.stats "shares", statGet d.stats "saves")) := by
  unfold batchStep at hout
  cases hbt : pySlice d.title 200 with
  | error e =>
      simp only [hbt] at hout
      exact (Except.noConfusion hout)
  | ok title2 =>
      cases hbd : pySlice d.description 500 with
      | error e =>
          simp only [hbt, hbd] at hout
          exact (Except.noConfusion hout)
      | ok desc2 =>
          simp only [hbt, hbd, hlook] at hout
          cases hout
          rw [lookup_replaceKey _ _ _ (by simp [hlook])]
          simp

/-- Insert path of one batch_upsert_posts loop iteration. -/
theorem batchStep_insert_spec (now : String) (d : BatchItem) (t : Tables) (c1 c2 : ℕ)
    (out : Tables × ℕ × ℕ)
    (hlook : t.posts.lookup (upsertUid d.platform d.postId) = none)
    (hout : batchStep now (t, c1, c2) d = .ok out) :
    ((out.1.posts.lookup (upsertUid d.platform d.postId)).map
        (fun r2 => (r2.prevViews, r2.prevLikes, r2.prevComments, r2.prevShares,
          r2.prevSaves, r2.updateCount)) = some (0, 0, 0, 0, 0, 1) ∧
     (out.1.posts.lookup (upsertUid d.platform d.postId)).map
        (fun r2 => (r2.views, r2.likes, r2.comments, r2.shares, r2.saves)) =
      some (statGet d.stats "views", statGet d.stats "likes", statGet d.stats "comments",
        statGet d.stats "shares", statGet d.stats "saves")) := by
  unfold batchStep at hout
  cases hbt : pySlice d.title 200 with
  | error e =>
      simp only [hbt] at hout
      exact (Except.noConfusion hout)
  | ok title2 =>
      cases hbd : pySlice d.description 500 with
      | error e =>
          simp only [hbt, hbd] at hout
          exact (Except.noConfusion hout)
      | ok desc2 =>
          simp only [hbt, hbd, hlook] at hout
          cases hout
          rw [lookup_append_self _ _ _ hlook]
          simp

/-- A successful batch loop iteration never touches a row with a different id. -/
theorem batchStep_frame (now : String) (d : BatchItem) (t : Tables) (c1 c2 : ℕ)
    (out : Tables × ℕ × ℕ) (u : String)
    (hu : (u == upsertUid d.platform d.postId) = false)
    (hout : batchStep now (t, c1, c2) d = .ok out) :
    out.1.posts.lookup u = t.posts.lookup u := by
  unfold batchStep at hout
  cases hbt : pySlice d.title 200 with
  | error e =>
      simp only [hbt] at hout
      exact (Except.noConfusion hout)
  | ok title2 =>
      cases hbd : pySlice d.description 500 with
      | error e =>
          simp only [hbt, hbd] at hout
          exact (Except.noConfusion hout)
      | ok desc2 =>
          cases hlook : t.posts.lookup (upsertUid d.platform d.postId) with
          | some ex =>
              simp only [hbt, hbd, hlook] at hout
              cases hout
              exact lookup_replaceKey_ne _ _ _ _ hu
          | none =>
              simp only [hbt, hbd, hlook] at hout
              cases hout
              exact lookup_append_ne _ _ _ _ hu

/-- A whole successful batch body leaves every id it never names unchanged. -/
theorem batchBody_frame (now : String) (items : List BatchItem) :
    ∀ (acc out : Tables × ℕ × ℕ) (u : String),
      items.foldlM (batchStep now) acc = .ok out →
      (∀ d ∈ items, (u == upsertUid d.platform d.postId) = false) →
      out.1.posts.lookup u = acc.1.posts.lookup u := by
  induction items with
  | nil =>
      intro acc out u h _
      rw [List.foldlM_nil] at h
      have h' : Except.ok acc = Except.ok out := h
      cases h'
      rfl
  | cons d rest ih =>
      intro acc out u h hall
      rw [List.foldlM_cons] at h
      cases hstep : batchStep now acc d with
      | error e =>
          rw [hstep] at h
          exact Except.noConfusion
            (show (Except.error e : Except PyErr (Tables × ℕ × ℕ)) = .ok out from h)
      | ok acc2 =>
          rw [hstep] at h
          have h' : rest.foldlM (batchStep now) acc2 = .ok out := h
          have h2 := ih acc2 out u h' (fun e2 he => hall e2 (List.mem_cons_of_mem _ he))
          rw [h2]
          obtain ⟨t0, cc1, cc2⟩ := acc
          exact batchStep_frame now d t0 cc1 cc2 acc2 u
            (hall d (List.mem_cons_self _ _)) hstep

/-- C3: the previous-snapshot counters always equal the counters the row held
immediately before its most recent update, through both entry points.  A
successful upsert_post on an existing row copies its current counters into the
prev columns, stores the incoming stats as current, and increments
update_count; a fresh insert starts with prev = (0,0,0,0,0) and update_count 1;
and rows with any other id are untouched — by a single upsert and by a whole
successful batch that never names their id — so no older snapshot can leak in.
Concretely, upserting counters (100,10,1,1,1) then (200,20,2,2,2) for the same
(platform, post_id) ends with update_count 2, previous counters (100,10,1,1,1)
and current counters (200,20,2,2,2), via upsert_post and via
batch_upsert_posts alike. -/
theorem claim3_prev_snapshot_invariant :
    (∀ (now : String) (a : UpsertArgs) (t : Tables) (r : PostRec) (t' : Tables)
        (v : Bool × Option (List (String × ℤ))),
        t.posts.lookup (upsertUid a.platform a.postId) = some r →
        upsertPost now a t = (t', .ok v) →
        ((t'.posts.lookup (upsertUid a.platform a.postId)).map
            (fun r2 => (r2.prevViews, r2.prevLikes, r2.prevComments, r2.prevShares,
              r2.prevSaves, r2.updateCount)) =
          some (r.views, r.likes, r.comments, r.shares, r.saves, r.updateCount + 1) ∧
         (t'.posts.lookup (upsertUid a.platform a.postId)).map
            (fun r2 => (r2.views, r2.likes, r2.comments, r2.shares, r2.saves)) =
          some (statGet a.stats "views", statGet a.stats "likes", statGet a.stats "comments",
            statGet a.stats "shares", statGet a.stats "saves"))) ∧
    (∀ (now : String) (a : UpsertArgs) (t : Tables) (t' : Tables)
        (v : Bool × Option (List (String × ℤ))),
        t.posts.lookup (upsertUid a.platform a.postId) = none →
        upsertPost now a t = (t', .ok v) →
        ((t'.posts.lookup (upsertUid a.platform a.postId)).map
            (fun r2 => (r2.prevViews, r2.prevLikes, r2.prevComments, r2.prevShares,
              r2.prevSaves, r2.updateCount)) = some (0, 0, 0, 0, 0, 1) ∧
         (t'.posts.lookup (upsertUid a.platform a.postId)).map
            (fun r2 => (r2.views, r2.likes, r2.comments, r2.shares, r2.saves)) =
          some (statGet a.stats "views", statGet a.stats "likes", statGet a.stats "comments",
            statGet a.stats "shares", statGet a.stats "saves"))) ∧
    (∀ (now : String) (a : UpsertArgs) (t : Tables) (t' : Tables)
        (v : Bool × Option (List (String × ℤ))) (u : String),
        upsertPost now a t = (t', .ok v) →
        (u == upsertUid a.platform a.postId) = false →
        t'.posts.lookup u = t.posts.lookup u) ∧
    (∀ (now : String) (d : BatchItem) (t : Tables) (c1 c2 : ℕ) (r : PostRec)
        (out : Tables × ℕ × ℕ),
        t.posts.lookup (upsertUid d.platform d.postId) = some r →
        batchStep now (t, c1, c2) d = .ok out →
        ((out.1.posts.lookup (upsertUid d.platform d.postId)).map
            (fun r2 => (r2.prevViews, r2.prevLikes, r2.prevComments, r2.prevShares,
              r2.prevSaves, r2.updateCount)) =
          some (r.views, r.likes, r.comments, r.shares, r.saves, r.updateCount + 1) ∧
         (out.1.posts.lookup (upsertUid d.platform d.postId)).map
            (fun r2 => (r2.views, r2.likes, r2.comments, r2.shares, r2.saves)) =
          some (statGet d.stats "views", statGet d.stats "likes", statGet d.stats "comments",
            statGet d.stats "shares", statGet d.stats "saves"))) ∧
    (∀ (now : String) (d : BatchItem) (t : Tables) (c1 c2 : ℕ)
        (out : Tables × ℕ × ℕ),
        t.posts.lookup (upsertUid d.platform d.postId) = none →
        batchStep now (t, c1, c2) d = .ok out →
        ((out.1.posts.lookup (upsertUid d.platform d.postId)).map
            (fun r2 => (r2.prevViews, r2.prevLikes, r2.prevComments, r2.prevShares,
              r2.prevSaves, r2.updateCount)) = some (0, 0, 0, 0, 0, 1) ∧
         (out.1.posts.lookup (upsertUid d.platform d.postId)).map
            (fun r2 => (r2.views, r2.likes, r2.comments, r2.shares, r2.saves)) =
          some (statGet d.stats "views", statGet d.stats "likes", statGet d.stats "comments",
            statGet d.stats "shares", statGet d.stats "saves"))) ∧
    (∀ (now : String) (d : BatchItem) (t : Tables) (c1 c2 : ℕ)
        (out : Tables × ℕ × ℕ) (u : String),
        batchStep now (t, c1, c2) d = .ok out →
        (u == upsertUid d.platform d.postId) = false →
        out.1.posts.lookup u = t.posts.lookup u) ∧
    (∀ (now : String) (items : List BatchItem) (t : Tables) (t' : Tables)
        (res : ℕ × ℕ) (u : String),
        batchUpsertPosts now items t = (t', .ok res) →
        (∀ d ∈ items, (u == upsertUid d.platform d.postId) = false) →
        t'.posts.lookup u = t.posts.lookup u) ∧
    (((upsertPost "t2" c3Args2 (upsertPost "t1" c3Args1 emptyTables).1).1.posts.lookup
        "tiktok:p1").map
        (fun r2 => (r2.updateCount, r2.prevViews, r2.prevLikes, r2.prevComments,
          r2.prevShares, r2.prevSaves)) =
      some (2, 100, 10, 1, 1, 1) ∧
     ((upsertPost "t2" c3Args2 (upsertPost "t1" c3Args1 emptyTables).1).1.posts.lookup
        "tiktok:p1").map
        (fun r2 => (r2.views, r2.likes, r2.comments, r2.shares, r2.saves)) =
      some (200, 20, 2, 2, 2)) ∧
    (((batchUpsertPosts "t2" [c3Item2]
        (batchUpsertPosts "t1" [c3Item1] emptyTables).1).1.posts.lookup "tiktok:p1").map
        (fun r2 => (r2.updateCount, r2.prevViews, r2.prevLikes, r2.prevComments,
          r2.prevShares, r2.prevSaves)) =
      some (2, 100, 10, 1, 1, 1) ∧
     ((batchUpsertPosts "t2" [c3Item2]
        (batchUpsertPosts "t1" [c3Item1] emptyTables).1).1.posts.lookup "tiktok:p1").map
        (fun r2 => (r2.views, r2.likes, r2.comments, r2.shares, r2.saves)) =
      some (200, 20, 2, 2, 2)) := by
  refine ⟨?_, ?_, ?_, ?_, ?_, ?_, ?_, ⟨by decide, by decide⟩, ⟨by decide, by decide⟩⟩
  · intro now a t r t' v hlook hout
    exact upsertBody_update_spec now a t r (t', v.1, v.2) hlook (upsertPost_ok_body hout)
  · intro now a t t' v hlook hout
    exact upsertBody_insert_spec now a t (t', v.1, v.2) hlook (upsertPost_ok_body hout)
  · intro now a t t' v u hout hu
    exact upsertBody_frame now a t (t', v.1, v.2) u hu (upsertPost_ok_body hout)
  · intro now d t c1 c2 r out hlook hout
    exact batchStep_update_spec now d t c1 c2 r out hlook hout
  · intro now d t c1 c2 out hlook hout
    exact batchStep_insert_spec now d t c1 c2 out hlook hout
  · intro now d t c1 c2 out u hout hu
    exact batchStep_frame now d t c1 c2 out u hu hout
  · intro now items t t' res u hout hall
    unfold batchUpsertPosts at hout
    by_cases he : items.isEmpty = true
    · rw [if_pos he] at hout
      injection hout with h1 h2
      rw [← h1]
    · rw [if_neg he] at hout
      cases hb : batchBody now items t with
      | error e =>
          rw [hb] at hout
          injection hout with h1 h2
          exact Except.noConfusion h2
      | ok o =>
          obtain ⟨t2, n2, u2⟩ := o
          rw [hb] at hout
          injection hout with h1 h2
          subst h1
          exact batchBody_frame now items (t, 0, 0) (t2, n2, u2) u hb hall

theorem claim3_witness :
    (c3T0.posts.lookup (upsertUid "tiktok" "p1") = some c3Rec0 ∧
     upsertPost "t2" c3Args2 c3T0 = (c3OutT, .ok c3V)) ∧
    ((c3OutT.posts.lookup (upsertUid c3Args2.platform c3Args2.postId)).map
        (fun r2 => (r2.prevViews, r2.prevLikes, r2.prevComments, r2.prevShares,
          r2.prevSaves, r2.updateCount)) =
      some (c3Rec0.views, c3Rec0.likes, c3Rec0.comments, c3Rec0.shares, c3Rec0.saves,
        c3Rec0.updateCount + 1) ∧
     (c3OutT.posts.lookup (upsertUid c3Args2.platform c3Args2.postId)).map
        (fun r2 => (r2.views, r2.likes, r2.comments, r2.shares, r2.saves)) =
      some (statGet c3Args2.stats "views", statGet c3Args2.stats "likes",
        statGet c3Args2.stats "comments", statGet c3Args2.stats "shares",
        statGet c3Args2.stats "saves")) :=
  ⟨⟨by decide, by decide⟩,
   claim3_prev_snapshot_invariant.1 "t2" c3Args2 c3T0 c3Rec0 c3OutT c3V
     (by decide) (by decide)⟩

/-! ### C5: freshness boundedness and formula -/
/-- A rounding to three decimals is monotone: round is monotone on ℚ. -/
theorem round_le_round_of_le {x y : ℚ} (h : x ≤ y) : round x ≤ round y := by
  rw [round_eq, round_eq]
  exact Int.floor_le_floor (by linarith)

/-- round3 keeps the unit interval. -/
theorem round3_mem01 {x : ℚ} (h0 : 0 ≤ x) (h1 : x ≤ 1) : 0 ≤ round3 x ∧ round3 x ≤ 1 := by
  have ha : round (0 : ℚ) ≤ round (x * 1000) :=
    round_le_round_of_le (mul_nonneg h0 (by norm_num))
  have hb : round (x * 1000) ≤ round ((1000 : ℚ)) :=
    round_le_round_of_le (by nlinarith)
  rw [round_zero] at ha
  rw [round_eq_of (1000 : ℚ) 1000 (by norm_num) (by norm_num)] at hb
  unfold round3
  constructor
  · exact div_nonneg (by exact_mod_cast ha) (by norm_num)
  · rw [div_le_one (by norm_num)]
    exact_mod_cast hb

/-- The new-post count never exceeds the row count. -/
theorem newPostsCount_le (rows : List PostRec) : newPostsCount rows ≤ rows.length :=
  List.length_filter_le _ _

/-- The un-rounded freshness rate lies in [0, 1] whenever new ≤ count. -/
theorem freshnessOf_mem01 (n c : ℕ) (b : ℤ) (h : n ≤ c) :
    0 ≤ freshnessOf n c b ∧ freshnessOf n c b ≤ 1 := by
  unfold freshnessOf
  split_ifs with h1 h2
  · constructor
    · exact le_min (div_nonneg (Nat.cast_nonneg n) (by exact_mod_cast h1.le)) zero_le_one
    · exact min_le_right _ _
  · constructor
    · exact div_nonneg (Nat.cast_nonneg n) (Nat.cast_nonneg c)
    · rw [div_le_one (by exact_mod_cast h2)]
      exact_mod_cast h
  · norm_num

/-- Projection of the non-empty branch of get_tag_aggregated_stats. -/
theorem getTag_freshness_eq (t : Tables) (platform tag : String) (batch : ℤ)
    (he : ¬ (tagRows t platform tag).isEmpty = true) :
    (getTagAggregatedStats t platform tag batch).freshnessRate =
      round3 (freshnessOf (newPostsCount (tagRows t platform tag))
        (tagRows t platform tag).length batch) := by
  unfold getTagAggregatedStats
  rw [if_neg he]

theorem claim7_witness :
    ((batchUpsertPosts "t0" [c7Good, c7Bad] emptyTables).2 = .error .typeError) ∧
    (batchUpsertPosts "t0" [c7Good, c7Bad] emptyTables).1 = emptyTables :=
  ⟨by decide,
   claim7_transaction_rollback.2.1 "t0" [c7Good, c7Bad] emptyTables .typeError (by decide)⟩

/-- C5: for every store state and every call, the returned freshness_rate lies in
[0, 1]; the empty aggregate reports freshness 1.0 and activity "new"; a
non-empty aggregate returns the freshness formula rounded to three decimals,
where the un-rounded rate is min(new/batch, 1) for positive batch size and
new/count otherwise, with new ≤ count. (The claim omits the 3-decimal rounding
of the returned rate; see the counterexample.) -/
theorem claim5_freshness (t : Tables) (platform tag : String) (batch : ℤ) :
    (0 ≤ (getTagAggregatedStats t platform tag batch).freshnessRate ∧
      (getTagAggregatedStats t platform tag batch).freshnessRate ≤ 1) ∧
    ((tagRows t platform tag).isEmpty = true →
      (getTagAggregatedStats t platform tag batch).freshnessRate = 1 ∧
      (getTagAggregatedStats t platform tag batch).activityLevel = "new") ∧
    ((tagRows t platform tag).isEmpty = false →
      newPostsCount (tagRows t platform tag) ≤ (tagRows t platform tag).length ∧
      (getTagAggregatedStats t platform tag batch).freshnessRate =
        round3 (freshnessOf (newPostsCount (tagRows t platform tag))
          (tagRows t platform tag).length batch) ∧
      (0 < batch →
        freshnessOf (newPostsCount (tagRows t platform tag))
            (tagRows t platform tag).length batch =
          min ((newPostsCount (tagRows t platform tag) : ℚ) / (batch : ℚ)) 1) ∧
      (¬ 0 < batch →
        freshnessOf (newPostsCount (tagRows t platform tag))
            (tagRows t platform tag).length batch =
          (newPostsCount (tagRows t platform tag) : ℚ) /
            ((tagRows t platform tag).length : ℚ))) := by
  by_cases he : (tagRows t platform tag).isEmpty = true
  · have hg : getTagAggregatedStats t platform tag batch = {} := by
      unfold getTagAggregatedStats
      rw [if_pos he]
    have hfr : (getTagAggregatedStats t platform tag batch).freshnessRate = 1 := by
      rw [hg]
    have hal : (getTagAggregatedStats t platform tag batch).activityLevel = "new" := by
      rw [hg]
    refine ⟨⟨by rw [hfr]; norm_num, le_of_eq hfr⟩, fun _ => ⟨hfr, hal⟩, fun hf => ?_⟩
    rw [hf] at he
    exact absurd he (by decide)
  · have hne : tagRows t platform tag ≠ [] := by
      intro h
      rw [h] at he
      exact he rfl
    have hlen : 0 < (tagRows t platform tag).length := List.length_pos.mpr hne
    have hle : newPostsCount (tagRows t platform tag) ≤ (tagRows t platform tag).length :=
      newPostsCount_le _
    have hfr := getTag_freshness_eq t platform tag batch he
    have hmem := freshnessOf_mem01 (newPostsCount (tagRows t platform tag))
      (tagRows t platform tag).length batch hle
    have hbound := round3_mem01 hmem.1 hmem.2
    refine ⟨⟨by rw [hfr]; exact hbound.1, by rw [hfr]; exact hbound.2⟩,
      fun hemp => absurd hemp he, fun _ => ⟨hle, hfr, fun hb => ?_, fun hb => ?_⟩⟩
    · unfold freshnessOf
      rw [if_pos hb]
    · unfold freshnessOf
      rw [if_neg hb, if_pos hlen]

/-- C5 counterexample: with one matching row (update_count = 1) and a batch size
of 3, the returned freshness_rate is 0.333, not min(1/3, 1) = 1/3: the claim's
exact formula ignores the 3-decimal rounding applied to the return value. -/
theorem claim5_counterexample :
    (getTagAggregatedStats c5T "tiktok" "dance" 3).freshnessRate ≠
      min ((newPostsCount (tagRows c5T "tiktok" "dance") : ℚ) / (3 : ℚ)) 1 := by
  have hn : newPostsCount (tagRows c5T "tiktok" "dance") = 1 := by decide
  have hl : (tagRows c5T "tiktok" "dance").length = 1 := by decide
  have hfr : (getTagAggregatedStats c5T "tiktok" "dance" 3).freshnessRate = 333/1000 := by
    rw [getTag_freshness_eq c5T "tiktok" "dance" 3 (by decide), hn, hl]
    unfold freshnessOf
    rw [if_pos (by norm_num : ((3:ℤ) > 0))]
    have hq : (((1:ℕ)):ℚ) / (((3:ℤ)):ℚ) = 1/3 := by norm_num
    rw [hq, min_eq_left (by norm_num : (1:ℚ)/3 ≤ 1)]
    unfold round3
    rw [round_eq_of ((1:ℚ)/3 * 1000) 333 (by norm_num) (by norm_num)]
    norm_num
  have hrhs : min ((newPostsCount (tagRows c5T "tiktok" "dance") : ℚ) / (3:ℚ)) 1 = 1/3 := by
    rw [hn]
    have hq : (((1:ℕ)):ℚ) / (3:ℚ) = 1/3 := by norm_num
    rw [hq]
    exact min_eq_left (by norm_num)
  rw [hfr, hrhs]
  norm_num

theorem claim5_witness :
    (tagRows c5T "tiktok" "dance").isEmpty = false ∧
    (getTagAggregatedStats c5T "tiktok" "dance" 3).freshnessRate =
      round3 (freshnessOf (newPostsCount (tagRows c5T "tiktok" "dance"))
        (tagRows c5T "tiktok" "dance").length 3) :=
  ⟨by decide, ((claim5_freshness c5T "tiktok" "dance" 3).2.2 (by decide)).2.1⟩

/-- A lookup hit means the any-scan over the keys hits too. -/
theorem any_key_of_lookup {α : Type} (fields : List (String × α)) (k : String) (v : α)
    (h : fields.lookup k = some v) :
    fields.any (fun kv => kv.1 == k) = true := by
  induction fields with
  | nil => exact absurd h (by simp)
  | cons kv rest ih =>
      rw [List.any_cons]
      cases hk : (k == kv.1)
      · rw [List.lookup] at h
        rw [hk] at h
        simp only [Bool.or_eq_true]
        exact Or.inr (ih h)
      · simp only [Bool.or_eq_true]
        exact Or.inl (by rw [beq_iff_eq] at hk ⊢; exact hk.symm)

/-- C9 (amended): a decoded JSON object whose 'data' key maps to an object is
replaced by that inner object; a decoded object whose 'data' key is absent or
maps to a non-object is processed unchanged; every non-object payload raises
(TypeError or AttributeError) before any broadcast instead of being processed
unchanged. -/
theorem claim9_envelope_unwrapping (fields inner : List (String × Json)) (raw : Json) :
    (jsonGet fields "data" = some (Json.obj inner) →
      marketUnwrap (Json.obj fields) = .ok (Json.obj inner)) ∧
    (isDictJson (jsonGet fields "data") = false →
      marketUnwrap (Json.obj fields) = .ok (Json.obj fields)) ∧
    (isObjJson raw = false → ∃ e, marketUnwrap raw = .error e) := by
  refine ⟨fun h => ?_, fun h => ?_, fun h => ?_⟩
  · have h' : List.lookup "data" fields = some (Json.obj inner) := h
    have hany : fields.any (fun kv => kv.1 == "data") = true :=
      any_key_of_lookup fields "data" (Json.obj inner) h'
    simp [marketUnwrap, pyInData, hany, pyGetData, jsonGet, h', isDictJson]
  · have h' : isDictJson (List.lookup "data" fields) = false := h
    cases hany : fields.any (fun kv => kv.1 == "data")
    · simp [marketUnwrap, pyInData, hany]
    · simp [marketUnwrap, pyInData, hany, pyGetData, jsonGet, h']
  · cases raw with
    | obj f => exact absurd h (by simp [isObjJson])
    | arr elems =>
        refine ⟨.attributeError, ?_⟩
        cases hany : elems.any (fun j => match j with | .jstr s => s == "data" | _ => false)
        · simp [marketUnwrap, pyInData, hany]
        · simp [marketUnwrap, pyInData, hany, pyGetData]
    | jstr s =>
        refine ⟨.attributeError, ?_⟩
        cases hany : strContainsStr s "data"
        · simp [marketUnwrap, pyInData, hany]
        · simp [marketUnwrap, pyInData, hany, pyGetData]
    | jnum q => exact ⟨.typeError, rfl⟩
    | jbool b => exact ⟨.typeError, rfl⟩
    | jnull => exact ⟨.typeError, rfl⟩

/-- C9 counterexample: a market-stream payload that decodes to the JSON number
5 has no 'data' key, yet it is not processed unchanged: `'data' in raw_data`
raises TypeError before any broadcast. -/
theorem claim9_counterexample :
    marketUnwrap (Json.jnum 5) ≠ Except.ok (Json.jnum 5) ∧
    marketUnwrap (Json.jnum 5) = Except.error PyErr.typeError :=
  ⟨fun h => by simp [marketUnwrap, pyInData] at h, rfl⟩

theorem claim9_witness :
    jsonGet c9Fields "data" = some (Json.obj c9Inner) ∧
    marketUnwrap (Json.obj c9Fields) = Except.ok (Json.obj c9Inner) :=
  ⟨rfl, (claim9_envelope_unwrapping c9Fields c9Inner Json.jnull).1 rfl⟩

/-- C8: with two registered clients subscribed to the broadcast topic, one
with a full bounded queue and one with room, broadcast returns normally with
the message appended to the non-full queue only; the full client's queue and
the client registry are unchanged. -/
theorem claim8_backpressure_isolation (cid1 cid2 ev t ts : String)
    (info1 info2 : SSEClient) (q1 q2 : ClientQueue) (d : RawStats)
    (hne : (cid2 == cid1) = false) (ht : ¬ t = "")
    (h1t : info1.topics.contains t = true) (h2t : info2.topics.contains t = true)
    (hfull : 0 < q1.maxsize ∧ q1.maxsize ≤ q1.items.length)
    (hfree : ¬ (0 < q2.maxsize ∧ q2.maxsize ≤ q2.items.length)) :
    broadcast ⟨[(cid1, q1), (cid2, q2)], [(cid1, info1), (cid2, info2)]⟩ ev d (some t) ts =
      ⟨[(cid1, q1), (cid2, { q2 with items := q2.items ++ [⟨ev, d, ts⟩] })],
        [(cid1, info1), (cid2, info2)]⟩ := by
  have hl1 : List.lookup cid1 [(cid1, info1), (cid2, info2)] = some info1 := by
    simp [List.lookup]
  have hl2 : List.lookup cid2 [(cid1, info1), (cid2, info2)] = some info2 := by
    simp [List.lookup, hne]
  have hs1 : topicSkip [(cid1, info1), (cid2, info2)] (some t) cid1 = false := by
    simp only [topicSkip]
    rw [if_neg ht, hl1]
    simp [skipByInfo, h1t]
    exact List.mem_of_elem_eq_true h1t
  have hs2 : topicSkip [(cid1, info1), (cid2, info2)] (some t) cid2 = false := by
    simp only [topicSkip]
    rw [if_neg ht, hl2]
    simp [skipByInfo, h2t]
    exact List.mem_of_elem_eq_true h2t
  have hp1 : putNowait q1 ⟨ev, d, ts⟩ = Except.error () := by
    unfold putNowait
    rw [if_pos hfull]
  have hp2 : putNowait q2 ⟨ev, d, ts⟩ =
      Except.ok { q2 with items := q2.items ++ [⟨ev, d, ts⟩] } := by
    unfold putNowait
    rw [if_neg hfree]
  simp [broadcast, broadcastEntry, hs1, hs2, hp1, hp2, deliverResult]

theorem claim8_witness :
    (("c2" == "c1") = false ∧ ¬ "market-stream" = "" ∧
      c8Info1.topics.contains "market-stream" = true ∧
      c8Info2.topics.contains "market-stream" = true ∧
      (0 < c8Full.maxsize ∧ c8Full.maxsize ≤ c8Full.items.length) ∧
      ¬ (0 < c8Free.maxsize ∧ c8Free.maxsize ≤ c8Free.items.length)) ∧
    broadcast ⟨[("c1", c8Full), ("c2", c8Free)], [("c1", c8Info1), ("c2", c8Info2)]⟩
        "trend_update" [] (some "market-stream") "ts" =
      ⟨[("c1", c8Full),
        ("c2", { c8Free with items := c8Free.items ++ [⟨"trend_update", [], "ts"⟩] })],
        [("c1", c8Info1), ("c2", c8Info2)]⟩ :=
  ⟨⟨by decide, by decide, by decide, by decide, by decide, by decide⟩,
   claim8_backpressure_isolation "c1" "c2" "trend_update" "market-stream" "ts"
     c8Info1 c8Info2 c8Full c8Free [] (by decide) (by decide) (by decide) (by decide)
     (by decide) (by decide)⟩

/-! ### C4: score monotonicity vs. growth -/
/-- Every metric name appears in the velocity weight table. -/
theorem metricName_mem_velocityList (n : MetricName) : ∃ w, (n, w) ∈ velocityList := by
  cases n
  · exact ⟨9/20, by simp [velocityList]⟩
  · exact ⟨1/4, by simp [velocityList]⟩
  · exact ⟨3/20, by simp [velocityList]⟩
  · exact ⟨1/10, by simp [velocityList]⟩
  · exact ⟨1/20, by simp [velocityList]⟩

/-- When every contributing metric carries the same growth signal g, V is
exactly clamp((g+1)/4, 0, 1). -/
theorem velocity_const (m pm : Metrics) (p : Platform) (g : ℚ)
    (hg : ∀ n, platWeight (platformConfig p) n ≠ 0 →
      specGrowth (m.get n) (pm.get n) = some g ∨ specGrowth (m.get n) (pm.get n) = none)
    (hx : ∃ n, platWeight (platformConfig p) n ≠ 0 ∧
      specGrowth (m.get n) (pm.get n) = some g) :
    computeVelocity m (some pm) p = clamp ((g + 1) / 4) 0 1 := by
  have hall : ∀ x ∈ velocityList.filterMap (specContrib (platformConfig p) m pm), x.2 = g := by
    intro x hxm
    rw [List.mem_filterMap] at hxm
    obtain ⟨e, he, hce⟩ := hxm
    simp only [specContrib] at hce
    by_cases hpw : platWeight (platformConfig p) e.1 = 0
    · rw [if_pos hpw] at hce; cases hce
    · rw [if_neg hpw] at hce
      obtain ⟨g2, hg2, hxg⟩ := Option.map_eq_some'.mp hce
      rcases hg e.1 hpw with h | h
      · rw [h] at hg2
        cases hg2
        rw [← hxg]
      · rw [h] at hg2; cases hg2
  obtain ⟨n, hpw, hsg⟩ := hx
  obtain ⟨w, hmem⟩ := metricName_mem_velocityList n
  have hsome : specContrib (platformConfig p) m pm (n, w) =
      some (w * platWeight (platformConfig p) n, g) := by
    simp only [specContrib]
    rw [if_neg hpw, hsg]
    rfl
  have hcs_mem : (w * platWeight (platformConfig p) n, g) ∈
      velocityList.filterMap (specContrib (platformConfig p) m pm) :=
    List.mem_filterMap.mpr ⟨(n, w), hmem, hsome⟩
  have hne : velocityList.filterMap (specContrib (platformConfig p) m pm) ≠ [] := by
    intro h0
    rw [h0] at hcs_mem
    exact absurd hcs_mem (List.not_mem_nil _)
  have hpos : 0 < ((velocityList.filterMap (specContrib (platformConfig p) m pm)).map
      Prod.fst).sum := by
    apply List.sum_pos
    · intro y hy
      rw [List.mem_map] at hy
      obtain ⟨z, hz, rfl⟩ := hy
      exact specContrib_weight_pos p m pm z hz
    · simpa using hne
  have hS : ((velocityList.filterMap (specContrib (platformConfig p) m pm)).map
      Prod.fst).sum ≠ 0 := ne_of_gt hpos
  have hnum : ((velocityList.filterMap (specContrib (platformConfig p) m pm)).map
      (fun x => x.1 * x.2)).sum =
      ((velocityList.filterMap (specContrib (platformConfig p) m pm)).map Prod.fst).sum * g := by
    rw [List.map_congr_left (fun x hxm => by rw [hall x hxm] :
      ∀ x ∈ velocityList.filterMap (specContrib (platformConfig p) m pm),
        x.1 * x.2 = x.1 * g)]
    exact List.sum_map_mul_right _ _ _
  have hemp : (velocityList.filterMap (specContrib (platformConfig p) m pm)).isEmpty = false := by
    cases hE : (velocityList.filterMap (specContrib (platformConfig p) m pm)).isEmpty
    · rfl
    · exact absurd (List.isEmpty_iff.mp hE) hne
  simp only [computeVelocity, foldl_velStep, hemp, zero_add, hnum]
  rw [mul_div_cancel_left₀ g hS]
  simp [hS]

/-- Growth signal of an exact 200% increase: previous = current/3. -/
theorem specGrowth_third_pos {x : ℚ} (hx : 0 < x) : specGrowth x (x / 3) = some 2 := by
  unfold specGrowth
  rw [if_pos (div_pos hx (by norm_num))]
  have h2 : (x - x / 3) / (x / 3) = 2 := by
    have hx0 : x ≠ 0 := ne_of_gt hx
    field_simp
    ring
  rw [h2, clamp_of_le_of_le (by norm_num) (by norm_num)]

/-- Growth signal of an exact 30% decrease: previous = current·10/7. -/
theorem specGrowth_tenSevenths_pos {x : ℚ} (hx : 0 < x) :
    specGrowth x (x * (10 / 7)) = some (-3 / 10) := by
  unfold specGrowth
  rw [if_pos (by positivity)]
  have h2 : (x - x * (10 / 7)) / (x * (10 / 7)) = -3 / 10 := by
    have hx0 : x ≠ 0 := ne_of_gt hx
    field_simp
    ring
  rw [h2, clamp_of_le_of_le (by norm_num) (by norm_num)]

theorem specGrowth_of_zero {y : ℚ} (hy : ¬ 0 < y) : specGrowth 0 y = none := by
  unfold specGrowth
  rw [if_neg hy, if_neg (by norm_num)]

/-- clamp into [0,1] stays in [0,1]. -/
theorem clamp01_mem (x : ℚ) : 0 ≤ clamp x 0 1 ∧ clamp x 0 1 ≤ 1 := by
  unfold clamp
  exact ⟨le_max_left _ _, max_le (by norm_num) (min_le_left _ _)⟩

theorem clamp01_ge {x c : ℚ} (hc : c ≤ 1) (hx : c ≤ x) : c ≤ clamp x 0 1 := by
  unfold clamp
  exact le_trans (le_min hc hx) (le_max_right _ _)

theorem clamp01_le {x c : ℚ} (hc : 0 ≤ c) (hx : x ≤ c) : clamp x 0 1 ≤ c := by
  unfold clamp
  exact max_le hc (le_trans (min_le_right 1 x) hx)

/-- H is clamped to [0,1] in every platform branch. -/
theorem hotness_mem01 (L : ℚ → ℚ) (m : Metrics) (posts : ℚ) (p : Platform) :
    0 ≤ computeHotness L m posts p ∧ computeHotness L m posts p ≤ 1 := by
  unfold computeHotness
  split_ifs
  · exact clamp01_mem _
  · exact clamp01_mem _

/-- D is clamped to [0,1]. -/
theorem density_mem01 (L : ℚ → ℚ) (posts uc fr : ℚ) (fc : Bool) :
    0 ≤ computeDensity L posts uc fr fc ∧ computeDensity L posts uc fr fc ≤ 1 := by
  unfold computeDensity
  exact clamp01_mem _

/-- A dict hit of lookup yields a value of the table. -/
theorem lookup_mem_snd {α β : Type} [BEq α] {l : List (α × β)} {k : α} {v : β}
    (h : l.lookup k = some v) : v ∈ l.map Prod.snd := by
  induction l with
  | nil => exact absurd h (by simp)
  | cons kv rest ih =>
      obtain ⟨a, b⟩ := kv
      rw [List.lookup] at h
      cases hk : (k == a)
      · rw [hk] at h
        exact List.mem_cons_of_mem _ (ih h)
      · rw [hk] at h
        cases h
        exact List.mem_cons_self _ _

/-- A substring match yields a value of the table. -/
theorem findSubstrMatch_mem {l : List (String × KeywordProfile)} {kw : String}
    {v : KeywordProfile} (h : findSubstrMatch l kw = some v) : v ∈ l.map Prod.snd := by
  induction l with
  | nil => exact absurd h (by simp [findSubstrMatch])
  | cons kv rest ih =>
      rw [findSubstrMatch] at h
      by_cases hc : (strContainsStr kw kv.1 || strContainsStr kv.1 kw) = true
      · rw [if_pos hc] at h
        cases h
        exact List.mem_cons_self _ _
      · rw [if_neg hc] at h
        exact List.mem_cons_of_mem _ (ih h)

/-- Every configured keyword profile has ai_feasibility ≥ 3, monetization ≥ 0.5
and ip_risk ≤ 0.6. -/
theorem keywordProfiles_bounds : ∀ pr ∈ keywordProfiles.map Prod.snd,
    3 ≤ pr.aiFeasibility ∧ 1/2 ≤ pr.monetization ∧ pr.ipRisk ≤ 3/5 := by
  intro pr hpr
  simp only [keywordProfiles, List.map_cons, List.map_nil, List.mem_cons] at hpr
  rcases hpr with h | h | h | h | h | h | h | h | h | h | h
  · rw [h]; refine ⟨by norm_num, by norm_num, by norm_num⟩
  · rw [h]; refine ⟨by norm_num, by norm_num, by norm_num⟩
  · rw [h]; refine ⟨by norm_num, by norm_num, by norm_num⟩
  · rw [h]; refine ⟨by norm_num, by norm_num, by norm_num⟩
  · rw [h]; refine ⟨by norm_num, by norm_num, by norm_num⟩
  · rw [h]; refine ⟨by norm_num, by norm_num, by norm_num⟩
  · rw [h]; refine ⟨by norm_num, by norm_num, by norm_num⟩
  · rw [h]; refine ⟨by norm_num, by norm_num, by norm_num⟩
  · rw [h]; refine ⟨by norm_num, by norm_num, by norm_num⟩
  · rw [h]; refine ⟨by norm_num, by norm_num, by norm_num⟩
  · exact absurd h (List.not_mem_nil pr)

/-- The returned keyword profile always satisfies the table's bounds (the
fallback default does too). -/
theorem getKeywordProfile_bounds (kw : String) :
    3 ≤ (getKeywordProfile kw).aiFeasibility ∧
    1/2 ≤ (getKeywordProfile kw).monetization ∧
    (getKeywordProfile kw).ipRisk ≤ 3/5 := by
  cases hl : keywordProfiles.lookup (normKeyword kw) with
  | some pr =>
      have hg : getKeywordProfile kw = pr := by
        simp only [getKeywordProfile]
        rw [hl]
      rw [hg]
      exact keywordProfiles_bounds pr (lookup_mem_snd hl)
  | none =>
      cases hf : findSubstrMatch keywordProfiles (normKeyword kw) with
      | some pr =>
          have hg : getKeywordProfile kw = pr := by
            simp only [getKeywordProfile]
            rw [hl, hf]
            rfl
          rw [hg]
          exact keywordProfiles_bounds pr (findSubstrMatch_mem hf)
      | none =>
          have hg : getKeywordProfile kw = defaultProfile := by
            simp only [getKeywordProfile]
            rw [hl, hf]
            rfl
          rw [hg]
          refine ⟨by norm_num [defaultProfile], by norm_num [defaultProfile],
            by norm_num [defaultProfile]⟩

/-- F lies in [1/2, 1]: every profile has ai_feasibility ≥ 3. -/
theorem feasibility_bounds (kw : String) :
    1/2 ≤ computeFeasibility kw ∧ computeFeasibility kw ≤ 1 := by
  have h := (getKeywordProfile_bounds kw).1
  unfold computeFeasibility
  exact ⟨clamp01_ge (by norm_num) (by linarith), (clamp01_mem _).2⟩

theorem monetBonus_nonneg (m : Metrics) (p : Platform) : 0 ≤ monetBonus m p := by
  unfold monetBonus
  split_ifs <;> norm_num

theorem monetBase_ge (kw : String) (p : Platform) : 1/4 ≤ monetBase kw p := by
  have h := (getKeywordProfile_bounds kw).2.1
  unfold monetBase
  split_ifs <;> nlinarith

/-- M lies in [1/4, 1]: the lowest platform multiplier is 0.5 on a profile
monetization of at least 0.5, and the volume bonus is nonnegative. -/
theorem monetization_bounds (kw : String) (m : Metrics) (p : Platform) :
    1/4 ≤ computeMonetization kw m p ∧ computeMonetization kw m p ≤ 1 := by
  have h1 := monetBase_ge kw p
  have h2 := monetBonus_nonneg m p
  unfold computeMonetization
  exact ⟨clamp01_ge (by norm_num) (by linarith), (clamp01_mem _).2⟩

theorem riskCompetition_le (m : Metrics) (posts : ℚ) (p : Platform) :
    riskCompetition m posts p ≤ 4/5 := by
  unfold riskCompetition
  split_ifs <;> norm_num

theorem riskCompetition_nonneg (m : Metrics) (posts : ℚ) (p : Platform) :
    0 ≤ riskCompetition m posts p := by
  unfold riskCompetition
  split_ifs <;> norm_num

/-- R lies in [0, 17/25]: ip_risk ≤ 0.6 and competition ≤ 0.8. -/
theorem risk_bounds (kw : String) (m : Metrics) (posts : ℚ) (p : Platform) :
    0 ≤ computeRisk kw m posts p ∧ computeRisk kw m posts p ≤ 17/25 := by
  have h1 := (getKeywordProfile_bounds kw).2.2
  have h2 := riskCompetition_le m posts p
  have h3 := riskCompetition_nonneg m posts p
  have h4 : 0 ≤ (getKeywordProfile kw).ipRisk ∨ True := Or.inr trivial
  unfold computeRisk
  refine ⟨(clamp01_mem _).1, clamp01_le (by norm_num) (by nlinarith)⟩

/-- The trend_score field of the scoring pipeline, written out. -/
theorem scoreCore_trendScore (L : ℚ → ℚ) (kw : String) (p : Platform) (m : Metrics)
    (pm? : Option Metrics) (fc : Bool) (posts fr : ℚ) :
    (scoreCore L kw p m pm? fc posts fr).trendScore =
      round (100 * clamp ((1/5) * computeHotness L m posts p +
        (3/10) * computeVelocity m pm? p + (3/20) * computeDensity L posts 0 fr fc +
        (3/20) * computeFeasibility kw + (1/5) * computeMonetization kw m p -
        (1/4) * computeRisk kw m posts p) 0 1) := rfl

/-- C4 (amended): holding keyword, platform, current stats, posts and freshness
fixed — and the first-crawl flag derived from the two previous dicts agreeing —
if the scorer extracts current metrics m and previous metrics equal to exactly
m/3 (a 200% increase) resp. m·10/7 (a 30% decrease), where the stats are
nonnegative and at least one velocity metric has a nonzero platform weight and
a positive current value, then the 200%-increase call returns a strictly
higher trend_score. (Without the nonzero-weight/positive-value condition the
claim fails: see the LinkedIn counterexample.) -/
theorem claim4_growth_monotonicity (L : ℚ → ℚ) (kw pstr : String)
    (raw prevUp prevDown : RawStats) (posts fresh : ℚ)
    (m pmUp pmDown : Metrics)
    (hm : extractMetrics raw (detectPlatform pstr) = some m)
    (hpu : prevMetricsOf (some prevUp) (detectPlatform pstr) = some (some pmUp))
    (hpd : prevMetricsOf (some prevDown) (detectPlatform pstr) = some (some pmDown))
    (hfc : isFirstCrawlOf (some prevUp) = isFirstCrawlOf (some prevDown))
    (hnn : ∀ n, 0 ≤ m.get n)
    (hup : ∀ n, pmUp.get n = m.get n / 3)
    (hdn : ∀ n, pmDown.get n = m.get n * (10 / 7))
    (hex : ∃ n, platWeight (platformConfig (detectPlatform pstr)) n ≠ 0 ∧ 0 < m.get n) :
    ∃ r1 r2,
      computeTrendScore L kw pstr raw (some prevUp) posts fresh = some r1 ∧
      computeTrendScore L kw pstr raw (some prevDown) posts fresh = some r2 ∧
      r2.trendScore < r1.trendScore := by
  have hV1 : computeVelocity m (some pmUp) (detectPlatform pstr) = 3/4 := by
    rw [velocity_const m pmUp (detectPlatform pstr) 2 ?hg ?hex]
    case hg =>
      intro n _
      rw [hup n]
      rcases lt_or_eq_of_le (hnn n) with h | h
      · exact Or.inl (specGrowth_third_pos h)
      · rw [← h]
        exact Or.inr (specGrowth_of_zero (by norm_num))
    case hex =>
      obtain ⟨n, hw, hpos⟩ := hex
      exact ⟨n, hw, by rw [hup n]; exact specGrowth_third_pos hpos⟩
    rw [clamp_of_le_of_le (by norm_num) (by norm_num)]
    norm_num
  have hV2 : computeVelocity m (some pmDown) (detectPlatform pstr) = 7/40 := by
    rw [velocity_const m pmDown (detectPlatform pstr) (-3/10) ?hg ?hex]
    case hg =>
      intro n _
      rw [hdn n]
      rcases lt_or_eq_of_le (hnn n) with h | h
      · exact Or.inl (specGrowth_tenSevenths_pos h)
      · rw [← h]
        exact Or.inr (specGrowth_of_zero (by norm_num))
    case hex =>
      obtain ⟨n, hw, hpos⟩ := hex
      exact ⟨n, hw, by rw [hdn n]; exact specGrowth_tenSevenths_pos hpos⟩
    rw [clamp_of_le_of_le (by norm_num) (by norm_num)]
    norm_num
  refine ⟨scoreCore L kw (detectPlatform pstr) m (some pmUp) (isFirstCrawlOf (some prevUp))
      posts fresh,
    scoreCore L kw (detectPlatform pstr) m (some pmDown) (isFirstCrawlOf (some prevDown))
      posts fresh, ?_, ?_, ?_⟩
  · simp only [computeTrendScore, hm, hpu]
  · simp only [computeTrendScore, hm, hpd]
  · rw [scoreCore_trendScore, scoreCore_trendScore, hV1, hV2, ← hfc]
    obtain ⟨hH0, hH1⟩ := hotness_mem01 L m posts (detectPlatform pstr)
    obtain ⟨hD0, hD1⟩ :=
      density_mem01 L posts 0 fresh (isFirstCrawlOf (some prevUp))
    obtain ⟨hF0, hF1⟩ := feasibility_bounds kw
    obtain ⟨hM0, hM1⟩ := monetization_bounds kw m (detectPlatform pstr)
    obtain ⟨hR0, hR1⟩ := risk_bounds kw m posts (detectPlatform pstr)
    set H := computeHotness L m posts (detectPlatform pstr) with hHdef
    set D := computeDensity L posts 0 fresh (isFirstCrawlOf (some prevUp)) with hDdef
    set F := computeFeasibility kw with hFdef
    set M := computeMonetization kw m (detectPlatform pstr) with hMdef
    set R := computeRisk kw m posts (detectPlatform pstr) with hRdef
    have hsU : clamp ((1/5) * H + (3/10) * (3/4) + (3/20) * D + (3/20) * F +
        (1/5) * M - (1/4) * R) 0 1 =
        (1/5) * H + (3/10) * (3/4) + (3/20) * D + (3/20) * F + (1/5) * M - (1/4) * R :=
      clamp_of_le_of_le (by nlinarith) (by nlinarith)
    have hsD : clamp ((1/5) * H + (3/10) * (7/40) + (3/20) * D + (3/20) * F +
        (1/5) * M - (1/4) * R) 0 1 =
        (1/5) * H + (3/10) * (7/40) + (3/20) * D + (3/20) * F + (1/5) * M - (1/4) * R :=
      clamp_of_le_of_le (by nlinarith) (by nlinarith)
    rw [hsU, hsD]
    have h17 : round (100 * ((1/5) * H + (3/10) * (7/40) + (3/20) * D + (3/20) * F +
        (1/5) * M - (1/4) * R) + ((17 : ℤ) : ℚ)) =
        round (100 * ((1/5) * H + (3/10) * (7/40) + (3/20) * D + (3/20) * F +
          (1/5) * M - (1/4) * R)) + 17 := round_add_int _ _
    have hle : 100 * ((1/5) * H + (3/10) * (7/40) + (3/20) * D + (3/20) * F +
        (1/5) * M - (1/4) * R) + ((17 : ℤ) : ℚ) ≤
        100 * ((1/5) * H + (3/10) * (3/4) + (3/20) * D + (3/20) * F +
          (1/5) * M - (1/4) * R) := by
      push_cast
      nlinarith
    have hmono := round_le_round_of_le hle
    rw [h17] at hmono
    linarith

/-- C4 counterexample: on LinkedIn every velocity platform weight is 0, so the
200%-increase call and the 30%-decrease call return the very same result — the
trend_score is not strictly higher. -/
theorem claim4_counterexample :
    computeTrendScore zeroLog "x" "linkedin" c4Raw (some c4PrevUp) 0 (1/2) =
      computeTrendScore zeroLog "x" "linkedin" c4Raw (some c4PrevDown) 0 (1/2) ∧
    (computeTrendScore zeroLog "x" "linkedin" c4Raw (some c4PrevUp) 0 (1/2)).isSome = true := by
  have h0 : extractMetrics c4Raw (detectPlatform "linkedin") = some ⟨0, 0, 0, 0, 0⟩ := by
    decide
  have h1 : prevMetricsOf (some c4PrevUp) (detectPlatform "linkedin") =
      some (some ⟨0, 0, 0, 0, 0⟩) := by decide
  have h2 : prevMetricsOf (some c4PrevDown) (detectPlatform "linkedin") =
      some (some ⟨0, 0, 0, 0, 0⟩) := by decide
  have h3 : isFirstCrawlOf (some c4PrevUp) = false := by decide
  have h4 : isFirstCrawlOf (some c4PrevDown) = false := by decide
  constructor
  · simp only [computeTrendScore, h0, h1, h2, h3, h4]
  · simp only [computeTrendScore, h0, h1, Option.isSome_some]

theorem claim4_witness :
    ∃ r1 r2,
      computeTrendScore zeroLog "dance" "tiktok" c4WRaw (some c4WPrevUp) 10 (1/2) = some r1 ∧
      computeTrendScore zeroLog "dance" "tiktok" c4WRaw (some c4WPrevDown) 10 (1/2) = some r2 ∧
      r2.trendScore < r1.trendScore :=
  claim4_growth_monotonicity zeroLog "dance" "tiktok" c4WRaw c4WPrevUp c4WPrevDown 10 (1/2)
    c4WMetrics c4WUp c4WDown (by decide) (by decide) (by decide) (by decide)
    (fun n => by cases n <;> norm_num [Metrics.get, c4WMetrics])
    (fun n => by cases n <;> norm_num [Metrics.get, c4WMetrics, c4WUp])
    (fun n => by cases n <;> norm_num [Metrics.get, c4WMetrics, c4WDown])
    ⟨.views, by decide, by decide⟩

end AdAlpha
